import Mathlib

/-
Verification development for the replicated chat-protocol engine of the
robustirc benchmark tree.

The command handlers are translated from the Go source file defining the
`ircserver` package command table and handlers (`cmdNick`, `cmdJoin`,
`cmdPart`, `cmdKick`, `cmdQuit`, `cmdKill`, `cmdMode`, `cmdTopic`,
`cmdNames`, `cmdInvite`, `normalizeModes`, and the `Commands` table of
`MinParams` declarations).  Helpers that the handlers call but whose
definitions are not part of this tree (`NickToLower`, `sendUser`,
`sendChannel`, `sendServices`, `sendCommonChannels`, `DeleteSession`,
`maybeDeleteChannel`, the message-parameter gate, and the whole
`outputstream` package, of which only the tests are present) are modelled
from the specification; each such definition carries a doc comment saying
so.

Go reference semantics is rendered by explicit state passing: sessions and
channels live in association lists keyed by their identifiers, and every
mutation through a Go pointer becomes a functional update written back
into the corresponding table.
-/

set_option linter.unusedVariables false

/-- A composite id: replicated-log position plus intra-batch sequence
(also used as session identity: connection id plus subsession). -/
structure RobustId where
  id : Int
  reply : Int
deriving DecidableEq, Repr

/-- An IRC origin triple (name, user, host). -/
structure IrcPref where
  name : String
  user : String
  host : String
deriving DecidableEq, Repr

/-- A protocol message: optional origin, command token, ordered parameters
(the trailing parameter, when present, is the last element of `params`). -/
structure IrcMessage where
  pref : Option IrcPref := none
  command : String
  params : List String := []
deriving DecidableEq, Repr

/-- `Trailing()` of the wire-message library: the last parameter, or the
empty string when there are no parameters. -/
def IrcMessage.trailing (m : IrcMessage) : String :=
  (m.params.getLast?).getD ("")

-- Association lists standing in for Go maps.  `alSet` updates in place
-- when the key is present and appends otherwise; `alDel` removes every
-- entry with the key.

def alGet {κ ν : Type} [DecidableEq κ] (k : κ) : List (κ × ν) → Option ν
  | [] => none
  | e :: rest => if e.1 = k then some e.2 else alGet k rest

def alSet {κ ν : Type} [DecidableEq κ] (k : κ) (v : ν) : List (κ × ν) → List (κ × ν)
  | [] => [(k, v)]
  | e :: rest => if e.1 = k then (k, v) :: rest else e :: alSet k v rest

def alDel {κ ν : Type} [DecidableEq κ] (k : κ) (l : List (κ × ν)) : List (κ × ν) :=
  l.filter (fun e => decide (e.1 ≠ k))

theorem alGet_alSet_self {κ ν : Type} [DecidableEq κ] (k : κ) (v : ν) (l : List (κ × ν)) :
    alGet k (alSet k v l) = some v := by
  induction l with
  | nil => simp [alGet, alSet]
  | cons e rest ih =>
    by_cases h : e.1 = k <;> simp [alGet, alSet, h, ih]

theorem alGet_alSet_ne {κ ν : Type} [DecidableEq κ] (k k' : κ) (v : ν) (l : List (κ × ν))
    (h : k' ≠ k) : alGet k (alSet k' v l) = alGet k l := by
  induction l with
  | nil => simp [alGet, alSet, h]
  | cons e rest ih =>
    by_cases he : e.1 = k'
    · have hek : e.1 ≠ k := by rw [he]; exact h
      simp [alGet, alSet, he, h, hek, ih]
    · by_cases hk : e.1 = k <;> simp [alGet, alSet, he, hk, ih, Ne.symm h]

theorem alSet_eq_self {κ ν : Type} [DecidableEq κ] (k : κ) (v : ν) (l : List (κ × ν))
    (h : alGet k l = some v) : alSet k v l = l := by
  induction l with
  | nil => simp [alGet] at h
  | cons e rest ih =>
    obtain ⟨e1, e2⟩ := e
    by_cases he : e1 = k
    · simp [alGet, he] at h
      simp [alSet, he, h]
    · simp [alGet, he] at h
      simp [alSet, he, ih h]

theorem alGet_alDel_self {κ ν : Type} [DecidableEq κ] (k : κ) (l : List (κ × ν)) :
    alGet k (alDel k l) = none := by
  induction l with
  | nil => simp [alGet, alDel]
  | cons e rest ih =>
    by_cases h : e.1 = k <;> simp_all [alGet, alDel, List.filter]

theorem alGet_alDel_ne {κ ν : Type} [DecidableEq κ] (k k' : κ) (l : List (κ × ν))
    (h : k' ≠ k) : alGet k (alDel k' l) = alGet k l := by
  induction l with
  | nil => simp [alGet, alDel]
  | cons e rest ih =>
    by_cases he : e.1 = k'
    · have hek : e.1 ≠ k := by rw [he]; exact h
      simp_all [alGet, alDel, List.filter, he]
    · by_cases hk : e.1 = k <;> simp_all [alGet, alDel, List.filter, he, hk]

theorem mem_alSet {κ ν : Type} [DecidableEq κ] (k : κ) (v : ν) (l : List (κ × ν))
    (e : κ × ν) (h : e ∈ alSet k v l) : e = (k, v) ∨ e ∈ l := by
  induction l with
  | nil => simp [alSet] at h; simp [h]
  | cons a rest ih =>
    by_cases ha : a.1 = k
    · simp [alSet, ha] at h
      rcases h with h | h
      · left; simp [h]
      · right; simp [h]
    · simp [alSet, ha] at h
      rcases h with h | h
      · right; simp [h]
      · rcases ih h with h' | h'
        · left; exact h'
        · right; simp [h']

theorem mem_alDel {κ ν : Type} [DecidableEq κ] (k : κ) (l : List (κ × ν))
    (e : κ × ν) (h : e ∈ alDel k l) : e ∈ l := by
  exact List.mem_of_mem_filter h

-- Spec-modelled primitives.  The definitions of these helpers are not in
-- this tree; each is reconstructed from the specification's words.

/-- Modelled from the spec: case-folding normalizes a name for comparison
while the display form is stored separately.  Folds ASCII letters to
lower case. -/
def foldChar (c : Char) : Char :=
  if ('A') ≤ c ∧ c ≤ ('Z') then Char.ofNat (c.toNat + 32) else c

/-- Modelled from the spec: `NickToLower`, the case-folding applied to
nicknames before they are used as keys of the nickname index. -/
def NickToLower (s : String) : String :=
  String.mk (s.toList.map foldChar)

/-- Modelled from the spec: `ChanToLower`, the case-folding applied to
channel names before they are used as keys of the channel table. -/
def ChanToLower (s : String) : String :=
  String.mk (s.toList.map foldChar)

/-- Modelled from the spec: `IsValidChannel`; channel names begin with
`#` (ISUPPORT advertises CHANTYPES=#).  The full validator is not in this
tree; the claims only use this as a gate hypothesis. -/
def IsValidChannel (s : String) : Bool :=
  match s.toList with
  | [] => false
  | c :: _ => c = ('#')

/-- Modelled from the spec: `IsValidNickname`; a nickname is nonempty and
does not start with a channel sigil or a digit.  The full validator is
not in this tree; the claims only use this as a gate hypothesis. -/
def IsValidNickname (s : String) : Bool :=
  match s.toList with
  | [] => false
  | c :: _ => ¬(c = ('#') ∨ c = (':') ∨ (('0') ≤ c ∧ c ≤ ('9')))

/-- Modelled from the spec: `IsServicesNickname`; nicknames reserved for
the services link (the case-folded name ends in `serv`).  Not in this
tree; used only as a gate hypothesis. -/
def IsServicesNickname (s : String) : Bool :=
  (NickToLower s).toList.reverse.take 4 = [('v'), ('r'), ('e'), ('s')]

/-- `strings.Split(s, ",")` on the comma: every comma separates, empty
pieces are preserved, splitting the empty string yields one empty piece. -/
def splitCommaChars : List Char → List (List Char)
  | [] => [[]]
  | c :: rest =>
    if c = (',') then [] :: splitCommaChars rest
    else
      match splitCommaChars rest with
      | h :: t => (c :: h) :: t
      | [] => [[c]]

def splitComma (s : String) : List String :=
  (splitCommaChars s.toList).map String.mk

/-- Modelled from the spec: `extractPassword`; the pending authentication
payload is a colon-separated list of `key=value` entries, and this returns
the value stored under `key`, or the empty string. -/
def extractPassword (pass key : String) : String :=
  match (pass.splitOn (":")).find? (fun p => p.startsWith (key ++ ("="))) with
  | some p => p.drop (key.length + 1)
  | none => ("")

/-- Modelled from the spec: the wire shape of §6 — a verb followed by
parameters, a parameter starting with `:` absorbing the rest of the line.
Only used to re-parse the `oper=` payload during login. -/
def parseWireParams : List String → List String
  | [] => []
  | w :: rest =>
    if w.startsWith (":") then [String.intercalate (" ") (w.drop 1 :: rest)]
    else w :: parseWireParams rest

/-- Modelled from the spec: the wire-format parser (`irc.ParseMessage`),
restricted to prefix-less lines as used by `maybeLogin`. -/
def parseMessage (line : String) : IrcMessage :=
  match (line.splitOn (" ")).filter (fun w => decide (w ≠ (""))) with
  | [] => { command := ("") }
  | verb :: rest => { command := verb, params := parseWireParams rest }

-- ISUPPORT length limits advertised during login.  The numeric values are
-- configuration constants whose definition is not in this tree.
def maxNickLen : String := ("30")
def maxChannelLen : String := ("32")

-- The data model (§3).

/-- A temporary reservation preventing reuse of a nickname: added-time,
duration and a reason shown on rejection. -/
structure Hold where
  added : Int
  duration : Int
  reason : String
deriving DecidableEq, Repr

/-- Per-member channel permission bits; `chanop` is the only one. -/
structure MemberPerms where
  chanop : Bool := false
deriving DecidableEq, Repr

/-- One connected participant (a `*Session` in the source; mutations
through the pointer are written back into the session table). -/
structure Session where
  Id : RobustId
  Nick : String := ("")
  Username : String := ("")
  Realname : String := ("")
  modes : List Char := []
  AwayMsg : String := ("")
  Operator : Bool := false
  loggedIn : Bool := false
  Pass : String := ("")
  svid : String := ("0")
  host : String := ("robust/0x0")
  ircPref : IrcPref := { name := (""), user := (""), host := ("") }
  Channels : List String := []
  invitedTo : List String := []
  LastActivity : Int := 0
  LastNonPing : Int := 0
deriving DecidableEq, Repr

/-- A named, case-folded group: display name, membership map keyed by the
case-folded nickname, channel mode flags, topic state. -/
structure Channel where
  name : String
  nicks : List (String × MemberPerms) := []
  modes : List Char := []
  topic : String := ("")
  topicNick : String := ("")
  topicTime : Int := 0
deriving DecidableEq, Repr

/-- Configuration inputs consumed by the engine (§6): operator
credentials, channel-count limit, and the external verification
collaborator (opaque functions). -/
structure IrcConfig where
  Operators : List (String × String) := []
  channelLimit : Nat := 0
  captchaConfigured : Bool := false
  captchaRequired : Bool := false
  verifyCaptcha : Session → String → Bool := fun _ _ => false
  generateCaptchaURL : Session → String → String := fun _ _ => ("")

/-- The Directory plus server identity: session table, nickname index,
channel table, hold table. -/
structure IRCServer where
  serverPref : IrcPref := { name := ("robustirc.net"), user := (""), host := ("") }
  serverCreationStr : String := ("")
  nicks : List (String × RobustId) := []
  sessions : List (RobustId × Session) := []
  channels : List (String × Channel) := []
  svsholds : List (String × Hold) := []
  Config : IrcConfig := {}

def IRCServer.ChannelLimit (i : IRCServer) : Nat := i.Config.channelLimit

-- Output synthesis.  Every message produced by a handler is appended to a
-- reply context together with its delivery interest.

/-- Modelled from the spec: the delivery-interest of an Output Message —
an explicit set of session ids plus a flag routing it to the services
link. -/
structure Interest where
  ids : List RobustId := []
  services : Bool := false
deriving DecidableEq, Repr

/-- An Output Message: delivery interest plus payload. -/
structure OutputMsg where
  interest : Interest
  msg : IrcMessage
deriving DecidableEq, Repr

/-- The per-command reply context: the input's log position and the
Output Messages synthesized so far (`replyid` counts them). -/
structure Replyctx where
  msgid : Int := 0
  replyid : Nat := 0
  output : List OutputMsg := []
deriving DecidableEq, Repr

def pushMsg (r : Replyctx) (intr : Interest) (m : IrcMessage) : Replyctx :=
  { r with replyid := r.replyid + 1, output := r.output ++ [⟨intr, m⟩] }

/-- Modelled from the spec: `sendUser` synthesizes one Output Message
addressed to exactly the given session. -/
def sendUser (s : Session) (r : Replyctx) (m : IrcMessage) : Replyctx :=
  pushMsg r { ids := [s.Id] } m

/-- Modelled from the spec: `sendServices` routes a message to the
services link. -/
def sendServices (r : Replyctx) (m : IrcMessage) : Replyctx :=
  pushMsg r { services := true } m

/-- The session ids of a channel's current members, resolved through the
nickname index at synthesis time. -/
def channelMemberIds (i : IRCServer) (c : Channel) : List RobustId :=
  c.nicks.filterMap (fun e => alGet e.1 i.nicks)

/-- Modelled from the spec: `sendChannel` addresses a message to the
channel's membership as it stands when the message is synthesized. -/
def sendChannel (i : IRCServer) (c : Channel) (r : Replyctx) (m : IrcMessage) : Replyctx :=
  pushMsg r { ids := channelMemberIds i c } m

/-- Modelled from the spec: `sendChannelButOne` addresses the membership
except the acting session. -/
def sendChannelButOne (i : IRCServer) (c : Channel) (s : Session) (r : Replyctx)
    (m : IrcMessage) : Replyctx :=
  pushMsg r { ids := (channelMemberIds i c).filter (fun x => decide (x ≠ s.Id)) } m

/-- Whether two sessions share at least one joined channel. -/
def sharesChannel (a b : Session) : Bool :=
  a.Channels.any (fun cn => b.Channels.contains cn)

/-- The session ids of every session sharing at least one channel with
`s`, read from the session table at synthesis time. -/
def commonChannelIds (i : IRCServer) (s : Session) : List RobustId :=
  (i.sessions.filter (fun e => sharesChannel e.2 s)).map (fun e => e.1)

/-- Modelled from the spec: `sendCommonChannels` addresses every session
that shares a channel with `s` at the time the message is synthesized. -/
def sendCommonChannels (i : IRCServer) (s : Session) (r : Replyctx) (m : IrcMessage) : Replyctx :=
  pushMsg r { ids := commonChannelIds i s } m

/-- Writes a mutated session back into the session table (the effect a
Go handler gets for free by mutating through the `*Session` pointer). -/
def putSession (i : IRCServer) (s : Session) : IRCServer :=
  { i with sessions := alSet s.Id s i.sessions }

/-- `s.updateIrcPrefix()`: refresh the origin triple from the current
nickname and username. -/
def updateIrcPref (s : Session) : Session :=
  { s with ircPref := { name := s.Nick, user := s.Username, host := s.host } }

/-- Modelled from the spec: `maybeDeleteChannel` — a channel with zero
members does not persist; it is removed the instant its membership
becomes empty.  Also performs the table write-back of the mutated
channel. -/
def maybeDeleteChannel (i : IRCServer) (c : Channel) : IRCServer :=
  if c.nicks.isEmpty then
    { i with channels := alDel (ChanToLower c.name) i.channels }
  else
    { i with channels := alSet (ChanToLower c.name) c i.channels }

/-- Modelled from the spec: `DeleteSession` — destruction cascade-removes
the session from every channel's membership (dropping channels that
become empty) and from the nickname index and session table. -/
def DeleteSession (i : IRCServer) (s : Session) : IRCServer :=
  { i with
    channels := i.channels.filterMap (fun e =>
      let c := e.2
      let c' := { c with nicks := alDel (NickToLower s.Nick) c.nicks }
      if c'.nicks.isEmpty then none else some (e.1, c')),
    nicks := alDel (NickToLower s.Nick) i.nicks,
    sessions := alDel s.Id i.sessions }

-- Numeric reply codes of the wire protocol library.

def RPL_WELCOME : String := ("001")
def RPL_YOURHOST : String := ("002")
def RPL_CREATED : String := ("003")
def RPL_MYINFO : String := ("004")
def RPL_AWAY : String := ("301")
def RPL_CHANNELMODEIS : String := ("324")
def RPL_NOTOPIC : String := ("331")
def RPL_TOPIC : String := ("332")
def RPL_INVITING : String := ("341")
def RPL_NAMREPLY : String := ("353")
def RPL_ENDOFNAMES : String := ("366")
def RPL_ENDOFBANLIST : String := ("368")
def RPL_MOTD : String := ("372")
def RPL_MOTDSTART : String := ("375")
def RPL_ENDOFMOTD : String := ("376")
def RPL_YOUREOPER : String := ("381")
def ERR_NOSUCHNICK : String := ("401")
def ERR_NOSUCHCHANNEL : String := ("403")
def ERR_NONICKNAMEGIVEN : String := ("431")
def ERR_ERRONEUSNICKNAME : String := ("432")
def ERR_NICKNAMEINUSE : String := ("433")
def ERR_USERNOTINCHANNEL : String := ("441")
def ERR_NOTONCHANNEL : String := ("442")
def ERR_USERONCHANNEL : String := ("443")
def ERR_NEEDMOREPARAMS : String := ("461")
def ERR_PASSWDMISMATCH : String := ("464")
def ERR_UNKNOWNMODE : String := ("472")
def ERR_INVITEONLYCHAN : String := ("473")
def ERR_NOPRIVILEGES : String := ("481")
def ERR_CHANOPRIVSNEEDED : String := ("482")
def ERR_USERSDONTMATCH : String := ("502")

-- Character-flag sets (`[...]bool` arrays indexed by mode letter in Go).

def setFlag (l : List Char) (ch : Char) : List Char :=
  if l.contains ch then l else l ++ [ch]

def clearFlag (l : List Char) (ch : Char) : List Char :=
  l.filter (fun x => decide (x ≠ ch))

def setModeFlag (l : List Char) (ch : Char) (v : Bool) : List Char :=
  if v then setFlag l ch else clearFlag l ch

/-- The `for mode := 'A'; mode < 'z'; mode++` render loop: `+` followed by
every set flag in that character range. -/
def modeFlagChars : List Char :=
  (List.range 57).map (fun n => Char.ofNat (65 + n))

def renderModes (flags : List Char) : String :=
  String.mk (('+') :: modeFlagChars.filter (fun c => flags.contains c))

-- String-set helpers for `map[...]bool` fields only ever storing `true`.

def setInsert (l : List String) (x : String) : List String :=
  if l.contains x then l else l ++ [x]

def setRemove (l : List String) (x : String) : List String :=
  l.filter (fun y => decide (y ≠ x))

/-- The `chanop` bit of a member, `false` when the nick is not a member
(where Go would dereference a nil permissions pointer; unreachable under
the Directory invariant). -/
def chanopOf (c : Channel) (nick : String) : Bool :=
  match alGet (NickToLower nick) c.nicks with
  | some p => p.chanop
  | none => false

/-- Re-reads a session mutated through its Go pointer from the table. -/
def getSession (i : IRCServer) (sid : RobustId) (dflt : Session) : Session :=
  (alGet sid i.sessions).getD dflt

abbrev HandlerResult := IRCServer × Replyctx

def cmdMotd (i : IRCServer) (s : Session) (r : Replyctx) (msg : IrcMessage) : HandlerResult :=
  let r := sendUser s r
    { pref := some i.serverPref, command := RPL_MOTDSTART,
      params := [s.Nick, ("- ") ++ i.serverPref.name ++ (" Message of the day -")] }
  let r := sendUser s r
    { pref := some i.serverPref, command := RPL_MOTD,
      params := [s.Nick, ("- No MOTD configured yet.")] }
  let r := sendUser s r
    { pref := some i.serverPref, command := RPL_ENDOFMOTD,
      params := [s.Nick, ("End of MOTD command")] }
  (i, r)

def cmdOper (i : IRCServer) (s : Session) (r : Replyctx) (msg : IrcMessage) : HandlerResult :=
  let name := msg.params.getD 0 ("")
  let password := msg.params.getD 1 ("")
  let authenticated := i.Config.Operators.any
    (fun op => decide (op.1 = name) && decide (op.2 = password))
  if authenticated = false then
    (i, sendUser s r
      { pref := some i.serverPref, command := ERR_PASSWDMISMATCH,
        params := [s.Nick, ("Password incorrect")] })
  else
    let s := { s with Operator := true, modes := setFlag s.modes ('o') }
    let i := putSession i s
    let modestr := renderModes s.modes
    let r := sendUser s r
      { pref := some i.serverPref, command := RPL_YOUREOPER,
        params := [s.Nick, ("You are now an IRC operator")] }
    let m : IrcMessage :=
      { pref := some i.serverPref, command := ("MODE"), params := [s.Nick, modestr] }
    (i, sendServices (sendUser s r m) m)

/-- `maybeLogin`, called by `cmdNick`/`cmdUser` once both the nickname and
the username are known.  The captcha collaborator is the opaque
verification service of the configuration. -/
def maybeLogin (i : IRCServer) (s : Session) (r : Replyctx) (msg : IrcMessage) : HandlerResult :=
  if s.loggedIn then (i, r)
  else if s.Nick = ("") ∨ s.Username = ("") then (i, r)
  else if i.Config.captchaRequired ∧
      i.Config.verifyCaptcha s (extractPassword s.Pass ("captcha")) = false then
    let captchaUrl := i.Config.generateCaptchaURL s
      (("login:") ++ toString s.LastActivity ++ (":"))
    (i, sendUser s r
      { pref := some i.serverPref, command := ("NOTICE"),
        params := [s.Nick, ("To login, please go to ") ++ captchaUrl] })
  else
    let s := { s with loggedIn := true }
    let i := putSession i s
    let r := sendUser s r
      { pref := some i.serverPref, command := RPL_WELCOME,
        params := [s.Nick, ("Welcome to RobustIRC!")] }
    let r := sendUser s r
      { pref := some i.serverPref, command := RPL_YOURHOST,
        params := [s.Nick, ("Your host is ") ++ i.serverPref.name] }
    let r := sendUser s r
      { pref := some i.serverPref, command := RPL_CREATED,
        params := [s.Nick, ("This server was created ") ++ i.serverCreationStr] }
    let r := sendUser s r
      { pref := some i.serverPref, command := RPL_MYINFO,
        params := [s.Nick, i.serverPref.name ++ (" v1 i nstix")] }
    let r := sendUser s r
      { pref := some i.serverPref, command := ("005"),
        params := [("CHANTYPES=#"), ("CHANNELLEN=") ++ maxChannelLen,
          ("NICKLEN=") ++ maxNickLen, ("MODES=1"), ("PREFIX=(o)@"), ("KNOCK"),
          ("are supported by this server")] }
    let r := sendServices r
      { command := ("NICK"),
        params := [s.Nick, ("1"), ("1"), s.Username, s.ircPref.host,
          i.serverPref.name, s.svid, ("+"), s.Realname] }
    let r :=
      if extractPassword s.Pass ("nickserv") ≠ ("") then
        sendServices r
          { pref := some s.ircPref, command := ("PRIVMSG"),
            params := [("NickServ"),
              ("IDENTIFY ") ++ extractPassword s.Pass ("nickserv")] }
      else r
    let ir :=
      if extractPassword s.Pass ("oper") ≠ ("") then
        let parsed := parseMessage (("OPER ") ++ extractPassword s.Pass ("oper"))
        if parsed.params.length > 1 then cmdOper i s r parsed else (i, r)
      else (i, r)
    let i := ir.1
    let r := ir.2
    -- In the interest of privacy, clear the password to make accidental
    -- leaks less likely.
    let s := getSession i s.Id s
    let s := { s with Pass := ("") }
    let i := putSession i s
    cmdMotd i s r msg

def cmdNick (i : IRCServer) (s : Session) (r : Replyctx) (msg : IrcMessage) : HandlerResult :=
  let oldPref := s.ircPref
  let nick := msg.params.getD 0 ("")
  if nick = ("") then
    (i, sendUser s r
      { pref := some i.serverPref, command := ERR_NONICKNAMEGIVEN,
        params := [("No nickname given")] })
  else
  let dest := if s.loggedIn then s.Nick else ("*")
  -- Whether the nick change only changes capitalization.
  let onlyCapsChanged : Bool := s.loggedIn && decide (NickToLower nick = NickToLower dest)
  if IsValidNickname nick = false then
    (i, sendUser s r
      { pref := some i.serverPref, command := ERR_ERRONEUSNICKNAME,
        params := [dest, nick, ("Erroneous nickname")] })
  else if ((alGet (NickToLower nick) i.nicks).isSome ∧ onlyCapsChanged = false) ∨
      IsServicesNickname nick then
    (i, sendUser s r
      { pref := some i.serverPref, command := ERR_NICKNAMEINUSE,
        params := [dest, nick, ("Nickname is already in use")] })
  else
  let afterHold : Option IRCServer :=
    match alGet (NickToLower nick) i.svsholds with
    | some hold =>
      if ¬ s.LastActivity > hold.added + hold.duration then none
      else
        -- The SVSHOLD expired, so remove it.
        some { i with svsholds := alDel (NickToLower nick) i.svsholds }
    | none => some i
  match afterHold, alGet (NickToLower nick) i.svsholds with
  | none, some hold =>
    (i, sendUser s r
      { pref := some i.serverPref, command := ERR_ERRONEUSNICKNAME,
        params := [dest, nick, ("Erroneous Nickname: ") ++ hold.reason] })
  | none, none => (i, r)
  | some i, _ =>
    let oldNick := NickToLower s.Nick
    let s := { s with Nick := nick }
    let i := { i with nicks := alSet (NickToLower s.Nick) s.Id i.nicks }
    let i :=
      if oldNick ≠ ("") ∧ onlyCapsChanged = false then
        { i with
          nicks := alDel oldNick i.nicks,
          channels := i.channels.map (fun e =>
            let c := e.2
            -- Check ok to ensure we never assign the default value (<nil>).
            match alGet oldNick c.nicks with
            | some modes =>
              (e.1, { c with
                nicks := alDel oldNick (alSet (NickToLower s.Nick) modes c.nicks) })
            | none => (e.1, { c with nicks := alDel oldNick c.nicks })) }
      else i
    let s := updateIrcPref s
    let i := putSession i s
    if oldNick ≠ ("") then
      let m : IrcMessage := { pref := some oldPref, command := ("NICK"), params := [nick] }
      (i, sendServices (sendCommonChannels i s (sendUser s r m) m) m)
    else
      maybeLogin i s r msg

def cmdTopic (i : IRCServer) (s : Session) (r : Replyctx) (msg : IrcMessage) : HandlerResult :=
  let channel := msg.params.getD 0 ("")
  match alGet (ChanToLower channel) i.channels with
  | none =>
    (i, sendUser s r
      { pref := some i.serverPref, command := ERR_NOSUCHCHANNEL,
        params := [s.Nick, channel, ("No such channel")] })
  | some c =>
    -- "TOPIC :", i.e. unset the topic.
    if msg.trailing = ("") ∧ msg.params.length = 2 then
      if c.modes.contains ('t') ∧ chanopOf c s.Nick = false then
        (i, sendUser s r
          { pref := some i.serverPref, command := ERR_CHANOPRIVSNEEDED,
            params := [s.Nick, channel, ("You're not channel operator")] })
      else
        let c := { c with topicNick := (""), topicTime := 0, topic := ("") }
        let i := { i with channels := alSet (ChanToLower channel) c i.channels }
        let r := sendChannel i c r
          { pref := some s.ircPref, command := ("TOPIC"),
            params := [channel, msg.trailing] }
        let r := sendServices r
          { pref := some { name := s.Nick, user := (""), host := ("") },
            command := ("TOPIC"),
            params := [channel, s.Nick, ("0"), msg.trailing] }
        (i, r)
    else if (s.Channels.contains (ChanToLower channel)) = false then
      (i, sendUser s r
        { pref := some i.serverPref, command := ERR_NOTONCHANNEL,
          params := [s.Nick, channel, ("You're not on that channel")] })
    -- "TOPIC", i.e. get the topic.
    else if msg.params.length = 1 then
      if c.topicTime = 0 then
        (i, sendUser s r
          { pref := some i.serverPref, command := RPL_NOTOPIC,
            params := [s.Nick, channel, ("No topic is set")] })
      else
        let r := sendUser s r
          { pref := some i.serverPref, command := RPL_TOPIC,
            params := [s.Nick, channel, c.topic] }
        -- RPL_TOPICWHOTIME (ircu-specific, not in the RFC)
        let r := sendUser s r
          { pref := some i.serverPref, command := ("333"),
            params := [s.Nick, channel, c.topicNick, toString c.topicTime] }
        (i, r)
    else if c.modes.contains ('t') ∧ chanopOf c s.Nick = false then
      (i, sendUser s r
        { pref := some i.serverPref, command := ERR_CHANOPRIVSNEEDED,
          params := [s.Nick, channel, ("You're not channel operator")] })
    else
      let c := { c with topicNick := s.Nick, topicTime := s.LastActivity,
                        topic := msg.trailing }
      let i := { i with channels := alSet (ChanToLower channel) c i.channels }
      let r := sendChannel i c r
        { pref := some s.ircPref, command := ("TOPIC"),
          params := [channel, msg.trailing] }
      let r := sendServices r
        { pref := some { name := s.Nick, user := (""), host := ("") },
          command := ("TOPIC"),
          params := [channel, c.topicNick, toString c.topicTime, msg.trailing] }
      (i, r)

-- `sort.Strings`: byte-lexicographic insertion sort.

def charListLe : List Char → List Char → Bool
  | [], _ => true
  | _ :: _, [] => false
  | a :: as, b :: bs => if a = b then charListLe as bs else decide (a.toNat < b.toNat)

def strLeB (a b : String) : Bool := charListLe a.toList b.toList

def insertSorted (x : String) : List String → List String
  | [] => [x]
  | y :: ys => if strLeB x y then x :: y :: ys else y :: insertSorted x ys

def sortStrings (l : List String) : List String := l.foldr insertSorted []

/-- The display nickname stored for a case-folded key (Go dereferences the
index pointer; absent keys are unreachable under the Directory
invariant). -/
def displayNick (i : IRCServer) (lcnick : String) : String :=
  match alGet lcnick i.nicks with
  | some sid =>
    match alGet sid i.sessions with
    | some t => t.Nick
    | none => ("")
  | none => ("")

def cmdNames (i : IRCServer) (s : Session) (r : Replyctx) (msg : IrcMessage) : HandlerResult :=
  let fallback := sendUser s r
    { pref := some i.serverPref, command := RPL_ENDOFNAMES,
      params := [s.Nick, ("*"), ("End of /NAMES list.")] }
  if msg.params.length > 0 then
    let channelname := msg.params.getD 0 ("")
    match alGet (ChanToLower channelname) i.channels with
    | some c =>
      let nicks := sortStrings (c.nicks.map (fun e =>
        (if e.2.chanop then ("@") else ("")) ++ displayNick i e.1))
      let r := sendUser s r
        { pref := some i.serverPref, command := RPL_NAMREPLY,
          params := [s.Nick, ("="), channelname, String.intercalate (" ") nicks] }
      let r := sendUser s r
        { pref := some i.serverPref, command := RPL_ENDOFNAMES,
          params := [s.Nick, channelname, ("End of /NAMES list.")] }
      (i, r)
    | none => (i, fallback)
  else (i, fallback)

-- The Mode Grammar: compact mode strings expanded into ordered change
-- lists and rendered back.

/-- One mode change: the sign character (`Mode[0]` in the source), the
mode letter (`Mode[1]`), and the optional argument. -/
structure ModeCmd where
  sign : Char
  letter : Char
  Param : String := ("")
deriving DecidableEq, Repr

def normalizeModesAux (params : List String) : List Char → Bool → Nat → List ModeCmd
  | [], _, _ => []
  | ch :: rest, adding, modearg =>
    if ch = ('+') ∨ ch = ('-') then
      normalizeModesAux params rest (ch = ('+')) modearg
    else if ch = ('o') ∨ ch = ('d') then
      -- Modes which require a parameter.
      let p := if params.length > modearg then params.getD modearg ("") else ("")
      { sign := if adding then ('+') else ('-'), letter := ch, Param := p } ::
        normalizeModesAux params rest adding (modearg + 1)
    else
      { sign := if adding then ('+') else ('-'), letter := ch } ::
        normalizeModesAux params rest adding modearg

def normalizeModes (msg : IrcMessage) : List ModeCmd :=
  if msg.params.length ≤ 1 then []
  else normalizeModesAux msg.params (msg.params.getD 1 ("")).toList true 2

def modeCmdsIRCParams (cmds : List ModeCmd) : List String :=
  let add := cmds.filter (fun m => decide (m.sign = ('+')))
  let remove := cmds.filter (fun m => decide (m.sign ≠ ('+')))
  let addStr : List Char := if add.length > 0 then ('+') :: add.map (fun m => m.letter) else []
  let remStr : List Char := if remove.length > 0 then ('-') :: remove.map (fun m => m.letter) else []
  let params := (add ++ remove).filterMap
    (fun m => if m.Param ≠ ("") then some m.Param else none)
  String.mk (addStr ++ remStr) :: params

/-- The per-change application loop of `cmdMode` on a channel: changes are
applied one at a time in order; the result carries the mutated channel,
the reply context, the `queryOnly` flag, and whether the loop returned
early (the not-a-chanop abort). -/
def applyChannelModes (i : IRCServer) (s : Session) (channelname : String) (isChanOp : Bool) :
    List ModeCmd → Channel → Replyctx → Bool → Channel × Replyctx × Bool × Bool
  | [], c, r, queryOnly => (c, r, queryOnly, false)
  | mode :: rest, c, r, queryOnly =>
    if ¬ (mode.sign = ('+') ∧ mode.letter = ('b')) then
      -- Non-query modes
      if isChanOp = false then
        (c, sendUser s r
          { pref := some i.serverPref, command := ERR_CHANOPRIVSNEEDED,
            params := [s.Nick, channelname, ("You're not channel operator")] },
         false, true)
      else
        let newvalue := mode.sign = ('+')
        if mode.letter = ('t') ∨ mode.letter = ('s') ∨ mode.letter = ('i') ∨
            mode.letter = ('n') then
          applyChannelModes i s channelname isChanOp rest
            { c with modes := setModeFlag c.modes mode.letter newvalue } r false
        else if mode.letter = ('x') then
          if i.Config.captchaConfigured then
            applyChannelModes i s channelname isChanOp rest
              { c with modes := setModeFlag c.modes mode.letter newvalue } r false
          else
            applyChannelModes i s channelname isChanOp rest c
              (sendUser s r
                { pref := some i.serverPref, command := ("NOTICE"),
                  params := [s.Nick,
                    ("Cannot set mode +x, no CaptchaURL/CaptchaHMACSecret configured")] })
              false
        else if mode.letter = ('o') then
          match alGet (NickToLower mode.Param) c.nicks with
          | none =>
            applyChannelModes i s channelname isChanOp rest c
              (sendUser s r
                { pref := some i.serverPref, command := ERR_USERNOTINCHANNEL,
                  params := [s.Nick, mode.Param, channelname,
                    ("They aren't on that channel")] })
              false
          | some perms =>
            -- If the user already is a chanop, silently do nothing (like
            -- UnrealIRCd).
            let newPerms : MemberPerms := { chanop := newvalue }
            let c :=
              if perms.chanop ≠ newvalue then
                { c with nicks := alSet (NickToLower mode.Param) newPerms c.nicks }
              else c
            applyChannelModes i s channelname isChanOp rest c r false
        else
          applyChannelModes i s channelname isChanOp rest c
            (sendUser s r
              { pref := some i.serverPref, command := ERR_UNKNOWNMODE,
                params := [s.Nick, String.mk [mode.letter],
                  ("is unknown mode char to me")] })
            false
    else
      -- Query modes (the letter here is necessarily 'b')
      applyChannelModes i s channelname isChanOp rest c
        (sendUser s r
          { pref := some i.serverPref, command := RPL_ENDOFBANLIST,
            params := [s.Nick, channelname, ("End of Channel Ban List")] })
        queryOnly

def cmdMode (i : IRCServer) (s : Session) (r : Replyctx) (msg : IrcMessage) : HandlerResult :=
  let channelname := msg.params.getD 0 ("")
  if s.Channels.contains (ChanToLower channelname) then
    -- Channel must exist, the user is in it.
    match alGet (ChanToLower channelname) i.channels with
    | none => (i, r)  -- nil dereference in Go; unreachable under the Directory invariant
    | some c =>
      let modes := normalizeModes msg
      if modes.length = 0 then
        (i, sendUser s r
          { pref := some i.serverPref, command := RPL_CHANNELMODEIS,
            params := [s.Nick, channelname, renderModes c.modes] })
      else
        let isChanOp := chanopOf c s.Nick || s.Operator
        let res := applyChannelModes i s channelname isChanOp modes c r true
        let c := res.1
        let r := res.2.1
        let queryOnly := res.2.2.1
        let early := res.2.2.2
        -- write-back of the channel mutated through the Go pointer
        let i := { i with channels := alSet (ChanToLower channelname) c i.channels }
        if early then (i, r)
        else if queryOnly then (i, r)
        else if r.replyid > 0 then (i, r)
        else
          let m : IrcMessage :=
            { pref := some s.ircPref, command := ("MODE"),
              params := channelname :: modeCmdsIRCParams modes }
          (i, sendServices (sendChannel i c r m) m)
  else
    let nick := NickToLower channelname
    match alGet nick i.nicks with
    | some sid =>
      match alGet sid i.sessions with
      | none => (i, r)  -- unreachable: index and session table are kept consistent
      | some session =>
        if nick ≠ NickToLower s.Nick ∧ s.Operator = false then
          (i, sendUser s r
            { pref := some i.serverPref, command := ERR_USERSDONTMATCH,
              params := [s.Nick, ("Can't change mode for other users")] })
        else
          let modes := normalizeModes msg
          if modes.length = 0 then
            let m : IrcMessage :=
              { pref := some s.ircPref, command := ("MODE"),
                params := [session.Nick, renderModes session.modes] }
            (i, sendServices (sendUser s r m) m)
          else
            let session := modes.foldl
              (fun t mode =>
                if mode.letter = ('i') then
                  { t with modes := setModeFlag t.modes ('i') (mode.sign = ('+')) }
                else t)
              session
            let i := putSession i session
            -- Confirmation goes to the destination user, not the issuer.
            let m : IrcMessage :=
              { pref := some s.ircPref, command := ("MODE"),
                params := [session.Nick, (modeCmdsIRCParams modes).getD 0 ("")] }
            (i, sendServices (sendUser session r m) m)
    | none =>
      (i, sendUser s r
        { pref := some i.serverPref, command := ERR_NOTONCHANNEL,
          params := [s.Nick, channelname, ("You're not on that channel")] })

/-- The tail of `cmdJoin`'s loop body once the join is permitted: consume
the invitation, add the member (the first joiner of a new channel becomes
channel operator), update the session's channel set, synthesize the join
batch and the integrated MODE/TOPIC/NAMES output. -/
def cmdJoinCommit (i : IRCServer) (s : Session) (r : Replyctx) (channelname : String)
    (c : Channel) (existed : Bool) (modesmsg : Option IrcMessage) :
    IRCServer × Session × Replyctx :=
  -- Invites are only valid once.
  let s :=
    if c.modes.contains ('i') ∨ c.modes.contains ('x') then
      { s with invitedTo := setRemove s.invitedTo (ChanToLower channelname) }
    else s
  let i := putSession i s
  if (alGet (NickToLower s.Nick) c.nicks).isSome then (i, s, r)
  else
    -- If the channel did not exist before, the first joining user becomes
    -- a channel operator.
    let perms : MemberPerms := { chanop := existed = false }
    let c := { c with nicks := alSet (NickToLower s.Nick) perms c.nicks }
    let i := { i with channels := alSet (ChanToLower channelname) c i.channels }
    let s := { s with Channels := setInsert s.Channels (ChanToLower channelname) }
    let i := putSession i s
    let r := sendChannel i c r
      { pref := some s.ircPref, command := ("JOIN"), params := [channelname] }
    let r :=
      match modesmsg with
      | some mm => sendChannel i c r mm
      | none => r
    let prefixStr := if chanopOf c s.Nick then ("@") else ("")
    let r := sendServices r
      { pref := some i.serverPref, command := ("SJOIN"),
        params := [("1"), channelname, prefixStr ++ s.Nick] }
    -- Channel joins integrate the output of MODE, TOPIC and NAMES commands:
    let ir := cmdMode i s r { command := ("MODE"), params := [channelname] }
    let ir := cmdTopic ir.1 s ir.2 { command := ("TOPIC"), params := [channelname] }
    let ir := cmdNames ir.1 s ir.2 { command := ("NAMES"), params := [channelname] }
    (ir.1, s, ir.2)

/-- One iteration of `cmdJoin`'s loop over the comma-separated channel
list. -/
def cmdJoinOne (i : IRCServer) (s : Session) (r : Replyctx) (channelname key : String) :
    IRCServer × Session × Replyctx :=
  if IsValidChannel channelname = false then
    (i, s, sendUser s r
      { pref := some i.serverPref, command := ERR_NOSUCHCHANNEL,
        params := [s.Nick, channelname, ("No such channel")] })
  else
    match alGet (ChanToLower channelname) i.channels with
    | none =>
      if i.channels.length ≥ i.ChannelLimit ∧ i.ChannelLimit > 0 then
        (i, s, sendUser s r
          { pref := some i.serverPref, command := ERR_NOSUCHCHANNEL,
            params := [s.Nick, channelname, ("No such channel")] })
      else
        let c : Channel := { name := channelname, modes := [('n'), ('t')] }
        let modesmsg : IrcMessage :=
          { pref := some i.serverPref, command := ("MODE"),
            params := [channelname, ("+nt")] }
        let i := { i with channels := alSet (ChanToLower channelname) c i.channels }
        cmdJoinCommit i s r channelname c false (some modesmsg)
    | some c =>
      if c.modes.contains ('i') ∧ (s.invitedTo.contains (ChanToLower channelname)) = false then
        (i, s, sendUser s r
          { pref := some i.serverPref, command := ERR_INVITEONLYCHAN,
            params := [s.Nick, c.name, ("Cannot join channel (+i)")] })
      else if c.modes.contains ('x') ∧
          (s.invitedTo.contains (ChanToLower channelname)) = false then
        if i.Config.verifyCaptcha s key = false then
          let captchaUrl := i.Config.generateCaptchaURL s
            (("join:") ++ toString s.LastActivity ++ (":") ++ c.name)
          let r := sendUser s r
            { pref := some i.serverPref, command := ("NOTICE"),
              params := [s.Nick, ("To join ") ++ c.name ++ (", please go to ") ++ captchaUrl] }
          let r := sendUser s r
            { pref := some i.serverPref, command := ERR_INVITEONLYCHAN,
              params := [s.Nick, c.name,
                ("Cannot join channel (+x). Please go to ") ++ captchaUrl] }
          (i, s, r)
        else
          cmdJoinCommit i s r channelname c true none
      else
        cmdJoinCommit i s r channelname c true none

def cmdJoinLoop (keys : List String) : Nat → List String → IRCServer → Session → Replyctx →
    IRCServer × Session × Replyctx
  | _, [], i, s, r => (i, s, r)
  | idx, cn :: rest, i, s, r =>
    let key := if idx < keys.length then keys.getD idx ("") else ("")
    let isr := cmdJoinOne i s r cn key
    cmdJoinLoop keys (idx + 1) rest isr.1 isr.2.1 isr.2.2

def cmdJoin (i : IRCServer) (s : Session) (r : Replyctx) (msg : IrcMessage) : HandlerResult :=
  let keys := if msg.params.length > 1 then splitComma (msg.params.getD 1 ("")) else []
  let isr := cmdJoinLoop keys 0 (splitComma (msg.params.getD 0 (""))) i s r
  (isr.1, isr.2.2)

/-- One iteration of `cmdPart`'s loop over the comma-separated channel
list. -/
def cmdPartOne (i : IRCServer) (s : Session) (r : Replyctx) (channelname : String) :
    IRCServer × Session × Replyctx :=
  match alGet (ChanToLower channelname) i.channels with
  | none =>
    (i, s, sendUser s r
      { pref := some i.serverPref, command := ERR_NOSUCHCHANNEL,
        params := [s.Nick, channelname, ("No such channel")] })
  | some c =>
    if (alGet (NickToLower s.Nick) c.nicks).isNone then
      (i, s, sendUser s r
        { pref := some i.serverPref, command := ERR_NOTONCHANNEL,
          params := [s.Nick, channelname, ("You're not on that channel")] })
    else
      let m : IrcMessage :=
        { pref := some s.ircPref, command := ("PART"), params := [channelname] }
      let r := sendServices (sendChannel i c r m) m
      let c := { c with nicks := alDel (NickToLower s.Nick) c.nicks }
      let i := maybeDeleteChannel i c
      let s := { s with Channels := setRemove s.Channels (ChanToLower channelname) }
      let i := putSession i s
      (i, s, r)

def cmdPartLoop : List String → IRCServer → Session → Replyctx →
    IRCServer × Session × Replyctx
  | [], i, s, r => (i, s, r)
  | cn :: rest, i, s, r =>
    let isr := cmdPartOne i s r cn
    cmdPartLoop rest isr.1 isr.2.1 isr.2.2

def cmdPart (i : IRCServer) (s : Session) (r : Replyctx) (msg : IrcMessage) : HandlerResult :=
  let isr := cmdPartLoop (splitComma (msg.params.getD 0 (""))) i s r
  (isr.1, isr.2.2)

def cmdKick (i : IRCServer) (s : Session) (r : Replyctx) (msg : IrcMessage) : HandlerResult :=
  let channelname := msg.params.getD 0 ("")
  match alGet (ChanToLower channelname) i.channels with
  | none =>
    (i, sendUser s r
      { pref := some i.serverPref, command := ERR_NOSUCHCHANNEL,
        params := [s.Nick, channelname, ("No such nick/channel")] })
  | some c =>
    match alGet (NickToLower s.Nick) c.nicks with
    | none =>
      (i, sendUser s r
        { pref := some i.serverPref, command := ERR_NOTONCHANNEL,
          params := [s.Nick, channelname, ("You're not on that channel")] })
    | some perms =>
      if perms.chanop = false then
        (i, sendUser s r
          { pref := some i.serverPref, command := ERR_CHANOPRIVSNEEDED,
            params := [s.Nick, channelname, ("You're not channel operator")] })
      else if (alGet (NickToLower (msg.params.getD 1 (""))) c.nicks).isNone then
        (i, sendUser s r
          { pref := some i.serverPref, command := ERR_USERNOTINCHANNEL,
            params := [s.Nick, msg.params.getD 1 (""), channelname,
              ("They aren't on that channel")] })
      else
        -- Must exist since c.nicks contains the nick.
        let sid := (alGet (NickToLower (msg.params.getD 1 (""))) i.nicks).getD ⟨0, 0⟩
        let session := getSession i sid { Id := sid }
        let m : IrcMessage :=
          { pref := some s.ircPref, command := ("KICK"),
            params := [msg.params.getD 0 (""), msg.params.getD 1 (""), msg.trailing] }
        let r := sendServices (sendChannel i c r m) m
        let c := { c with nicks := alDel (NickToLower (msg.params.getD 1 (""))) c.nicks }
        let i := maybeDeleteChannel i c
        let session := { session with
          Channels := setRemove session.Channels (ChanToLower channelname) }
        let i := putSession i session
        (i, r)

def cmdQuit (i : IRCServer) (s : Session) (r : Replyctx) (msg : IrcMessage) : HandlerResult :=
  let i := DeleteSession i s
  if s.loggedIn then
    let m : IrcMessage :=
      { pref := some s.ircPref, command := ("QUIT"), params := [msg.trailing] }
    let r := sendServices (sendCommonChannels i s r m) m
    let r := sendUser s r
      { command := ("ERROR"),
        params := [("Closing Link: ") ++ s.Nick ++ ("[") ++ s.ircPref.host ++
          ("] (") ++ msg.trailing ++ (")")] }
    (i, r)
  else (i, r)

def cmdKill (i : IRCServer) (s : Session) (r : Replyctx) (msg : IrcMessage) : HandlerResult :=
  if msg.params.length < 2 then
    (i, sendUser s r
      { pref := some i.serverPref, command := ERR_NEEDMOREPARAMS,
        params := [s.Nick, msg.command, ("Not enough parameters")] })
  else if s.Operator = false then
    (i, sendUser s r
      { pref := some i.serverPref, command := ERR_NOPRIVILEGES,
        params := [s.Nick, ("Permission Denied - You're not an IRC operator")] })
  else
    match alGet (NickToLower (msg.params.getD 0 (""))) i.nicks with
    | none =>
      (i, sendUser s r
        { pref := some i.serverPref, command := ERR_NOSUCHNICK,
          params := [s.Nick, msg.params.getD 0 (""), ("No such nick/channel")] })
    | some sid =>
      match alGet sid i.sessions with
      | none => (i, r)  -- unreachable: index and session table are kept consistent
      | some session =>
        let i := DeleteSession i session
        let m : IrcMessage :=
          { pref := some session.ircPref, command := ("QUIT"),
            params := [("Killed by ") ++ s.Nick ++ (": ") ++ msg.trailing] }
        let r := sendServices (sendCommonChannels i session r m) m
        let r := sendUser session r
          { pref := some s.ircPref, command := ("KILL"),
            params := [session.Nick,
              ("ircd!") ++ s.ircPref.host ++ ("!") ++ s.Nick ++ (" (") ++
                msg.trailing ++ (")")] }
        let r := sendUser session r
          { command := ("ERROR"),
            params := [("Closing Link: ") ++ session.Nick ++ ("[") ++
              session.ircPref.host ++ ("] (Killed (") ++ s.Nick ++ (" (") ++
              msg.trailing ++ (")))")] }
        (i, r)

def cmdInvite (i : IRCServer) (s : Session) (r : Replyctx) (msg : IrcMessage) : HandlerResult :=
  let nickname := msg.params.getD 0 ("")
  let channelname := msg.params.getD 1 ("")
  match alGet (ChanToLower channelname) i.channels with
  | none =>
    (i, sendUser s r
      { pref := some i.serverPref, command := ERR_NOTONCHANNEL,
        params := [s.Nick, msg.params.getD 1 (""), ("You're not on that channel")] })
  | some c =>
    if (alGet (NickToLower s.Nick) c.nicks).isNone then
      (i, sendUser s r
        { pref := some i.serverPref, command := ERR_NOTONCHANNEL,
          params := [s.Nick, msg.params.getD 1 (""), ("You're not on that channel")] })
    else
      match alGet (NickToLower nickname) i.nicks with
      | none =>
        (i, sendUser s r
          { pref := some i.serverPref, command := ERR_NOSUCHNICK,
            params := [s.Nick, msg.params.getD 0 (""), ("No such nick/channel")] })
      | some sid =>
        match alGet sid i.sessions with
        | none => (i, r)  -- unreachable: index and session table are kept consistent
        | some session =>
          if (alGet (NickToLower nickname) c.nicks).isSome then
            (i, sendUser s r
              { pref := some i.serverPref, command := ERR_USERONCHANNEL,
                params := [s.Nick, session.Nick, c.name, ("is already on channel")] })
          else if c.modes.contains ('i') ∧ chanopOf c s.Nick = false then
            (i, sendUser s r
              { pref := some i.serverPref, command := ERR_CHANOPRIVSNEEDED,
                params := [s.Nick, c.name, ("You're not channel operator")] })
          else
            let session := { session with
              invitedTo := setInsert session.invitedTo (ChanToLower channelname) }
            let i := putSession i session
            let r := sendUser s r
              { pref := some i.serverPref, command := RPL_INVITING,
                params := [s.Nick, session.Nick, c.name] }
            let m : IrcMessage :=
              { pref := some s.ircPref, command := ("INVITE"),
                params := [session.Nick, c.name] }
            let r := sendServices (sendUser session r m) m
            let r := sendChannel i c r
              { pref := some i.serverPref, command := ("NOTICE"),
                params := [c.name, s.Nick ++ (" invited ") ++ msg.params.getD 0 ("") ++
                  (" into the channel.")] }
            let r :=
              if session.AwayMsg ≠ ("") then
                sendUser s r
                  { pref := some i.serverPref, command := RPL_AWAY,
                    params := [s.Nick, msg.params.getD 0 (""), session.AwayMsg] }
              else r
            (i, r)

-- The command table and the parameter-count gate.

abbrev HandlerFn := IRCServer → Session → Replyctx → IrcMessage → HandlerResult

/-- A command-table entry: handler plus declared minimum parameter
count. -/
structure IrcCommand where
  Func : HandlerFn
  MinParams : Nat := 0

/-- Modelled from the spec: the parameter-count gate of the dispatch loop
— when fewer than `MinParams` parameters are present, the handler is
never invoked and a single need-more-parameters reply is synthesized
addressed to the caller. -/
def ircCommandDispatch (cmd : IrcCommand) (i : IRCServer) (s : Session) (r : Replyctx)
    (msg : IrcMessage) : HandlerResult :=
  if msg.params.length < cmd.MinParams then
    (i, sendUser s r
      { pref := some i.serverPref, command := ERR_NEEDMOREPARAMS,
        params := [s.Nick, msg.command, ("Not enough parameters")] })
  else
    cmd.Func i s r msg

/-- The declared `MinParams` of every entry registered in the `Commands`
table (entries without an explicit `MinParams` default to zero). -/
def CommandsMinParams : List (String × Nat) :=
  [(("PING"), 0), (("NICK"), 0), (("USER"), 3), (("JOIN"), 1), (("PART"), 1),
   (("KICK"), 2), (("QUIT"), 0), (("PRIVMSG"), 0), (("NOTICE"), 0),
   (("MODE"), 1), (("WHO"), 0), (("OPER"), 2), (("KILL"), 1), (("AWAY"), 0),
   (("TOPIC"), 1), (("MOTD"), 0), (("WHOIS"), 1), (("LIST"), 0),
   (("INVITE"), 2), (("USERHOST"), 1), (("NAMES"), 0), (("KNOCK"), 1),
   (("ISON"), 1), (("NICKSERV"), 0), (("CHANSERV"), 0), (("OPERSERV"), 0),
   (("MEMOSERV"), 0), (("HOSTSERV"), 0), (("BOTSERV"), 0), (("NS"), 0),
   (("CS"), 0), (("OS"), 0), (("MS"), 0), (("HS"), 0), (("BS"), 0),
   (("PASS"), 0)]

-- The Output Stream (§4.2).  Only the tests of the `outputstream`
-- package are part of this tree; the structure is modelled from the
-- specification and validated against the behavior those tests assert.

/-- One Output Stream message: composite id plus serialized payload. -/
structure OSMessage where
  Id : RobustId
  Data : String := ("")
deriving DecidableEq, Repr

/-- Modelled from the spec: the Output Stream state — stored batches
keyed by their primary id, in append (= id) order, plus the
last-assigned-id marker. -/
structure OutputStream where
  messages : List (Int × List OSMessage) := []
  lastseen : RobustId := ⟨0, 0⟩
deriving DecidableEq, Repr

def OutputStream.new : OutputStream := {}

/-- Modelled from the spec: `Add` appends a contiguous batch under its
primary id and updates the last-id marker (the broadcast wake of blocked
consumers has no purely functional content). -/
def OutputStream.Add (os : OutputStream) (msgs : List OSMessage) : OutputStream :=
  match msgs with
  | [] => os
  | m :: _ =>
    { messages := os.messages ++ [(m.Id.id, msgs)],
      lastseen := ((msgs.getLast?).getD m).Id }

/-- `Get`: non-blocking lookup of the batch stored at exactly the id. -/
def OutputStream.Get (os : OutputStream) (id : RobustId) : Option (List OSMessage) :=
  alGet id.id os.messages

/-- Modelled from the spec: `GetNext` returns the first stored batch whose
id strictly follows `lastseen`; `none` models the blocking case (no
qualifying batch stored yet). -/
def OutputStream.GetNext (os : OutputStream) (lastseen : RobustId) : Option (List OSMessage) :=
  (os.messages.find? (fun e => decide (e.1 > lastseen.id))).map (fun e => e.2)

/-- Modelled from the spec and the tests: `Delete` removes the batch
stored at the id; deleting an id at which nothing is stored is the fatal
invariant violation (`log.Panicf` in the implementation), modelled as
`none`. -/
def OutputStream.Delete (os : OutputStream) (id : RobustId) : Option OutputStream :=
  if (alGet id.id os.messages).isSome then
    some { os with messages := alDel id.id os.messages }
  else
    none

/-- `LastSeen`: the id of the most recently added batch, or the zero id. -/
def OutputStream.LastSeen (os : OutputStream) : RobustId := os.lastseen

/-- The retained window is ordered: batch keys strictly increase in
storage order (the producer assigns strictly monotonic ids). -/
def OutputStream.SortedKeys (os : OutputStream) : Prop :=
  os.messages.Pairwise (fun a b => a.1 < b.1)

-- Groundwork: the spec-modelled Output Stream satisfies every assertion
-- the `outputstream` tests of this tree script against it.

def osT1 : OutputStream := OutputStream.new.Add [{ Id := ⟨1, 1⟩ }]
def osT2 : OutputStream := osT1.Add [{ Id := ⟨2, 1⟩ }]
def osT3 : OutputStream := osT2.Add [{ Id := ⟨3, 1⟩ }]

def osT4 : OutputStream :=
  { messages := [(1, [{ Id := ⟨1, 1⟩ }]), (3, [{ Id := ⟨3, 1⟩ }])], lastseen := ⟨3, 1⟩ }
def osT5 : OutputStream :=
  { messages := [(1, [{ Id := ⟨1, 1⟩ }])], lastseen := ⟨3, 1⟩ }
def osT6 : OutputStream := { messages := [], lastseen := ⟨4, 1⟩ }
def osT7 : OutputStream := { messages := [], lastseen := ⟨5, 1⟩ }

/-- The model reproduces the `TestCatchUp` and `TestDeleteMiddle`
scripts: `LastSeen` tracking, sequential `GetNext` reads, the middle
delete succeeding with `Get`/`GetNext` intact, deletes down to the empty
window succeeding in the order the test issues them, and the final
delete of a never-stored id being the fatal case. -/
theorem outputstream_matches_tests :
    OutputStream.new.LastSeen = ⟨0, 0⟩ ∧
    osT1.LastSeen = ⟨1, 1⟩ ∧
    osT3.GetNext ⟨0, 0⟩ = some [{ Id := ⟨1, 1⟩ }] ∧
    osT3.GetNext ⟨1, 1⟩ = some [{ Id := ⟨2, 1⟩ }] ∧
    osT3.GetNext ⟨2, 1⟩ = some [{ Id := ⟨3, 1⟩ }] ∧
    osT3.Delete ⟨2, 0⟩ = some osT4 ∧
    osT4.Get ⟨3, 0⟩ = some [{ Id := ⟨3, 1⟩ }] ∧
    osT4.Get ⟨23, 0⟩ = none ∧
    osT4.GetNext ⟨2, 1⟩ = some [{ Id := ⟨3, 1⟩ }] ∧
    osT4.GetNext ⟨1, 1⟩ = some [{ Id := ⟨3, 1⟩ }] ∧
    osT4.Delete ⟨3, 0⟩ = some osT5 ∧
    osT5.GetNext ⟨3, 1⟩ = none ∧
    (osT5.Add [{ Id := ⟨4, 1⟩ }]).GetNext ⟨3, 1⟩ = some [{ Id := ⟨4, 1⟩ }] ∧
    ((osT5.Add [{ Id := ⟨4, 1⟩ }]).Delete ⟨1, 0⟩).bind
        (fun o => o.Delete ⟨4, 0⟩) = some osT6 ∧
    osT6.GetNext ⟨3, 1⟩ = none ∧
    (osT6.Add [{ Id := ⟨5, 1⟩ }]).GetNext ⟨3, 1⟩ = some [{ Id := ⟨5, 1⟩ }] ∧
    (osT6.Add [{ Id := ⟨5, 1⟩ }]).Delete ⟨5, 0⟩ = some osT7 ∧
    osT7.Delete ⟨0, 0⟩ = none := by
  decide

/-- C3: the claim declares every `Delete` of a non-head id fatal, but on
the stream holding ids 1, 2, 3 (retained head 1) deleting the middle id 2
succeeds — exactly the behavior the tree's own `TestDeleteMiddle`
asserts.  The claim as stated is therefore false. -/
theorem c3_counterexample_delete_middle :
    osT3.messages.head?.map (fun e => e.1) = some 1 ∧
    osT3.Get ⟨1, 0⟩ = some [{ Id := ⟨1, 1⟩ }] ∧
    (osT3.Delete ⟨2, 0⟩).isSome = true := by
  decide

theorem alGet_mem {κ ν : Type} [DecidableEq κ] (k : κ) (v : ν) (l : List (κ × ν))
    (h : alGet k l = some v) : (k, v) ∈ l := by
  induction l with
  | nil => simp [alGet] at h
  | cons e rest ih =>
    obtain ⟨e1, e2⟩ := e
    by_cases he : e1 = k
    · simp [alGet, he] at h
      simp [he, h]
    · simp [alGet, he] at h
      simp [ih h]

/-- C3 (amended): `Delete(id)` removes the batch stored at exactly `id`
and leaves every other stored id readable; a `Delete` of an id at which
no batch is stored — deleting the same id twice, an id below the
retained window, or a never-assigned id — is the fatal, unrecoverable
case (the panic), never a silently ignored one.  Deleting a stored
non-head id succeeds. -/
theorem c3_amended_delete_exact (os : OutputStream) (id other : RobustId) :
    (os.Delete id = none ↔ os.Get id = none) ∧
    (∀ os', os.Delete id = some os' →
      os'.Get id = none ∧
      (other.id ≠ id.id → os'.Get other = os.Get other) ∧
      os'.LastSeen = os.LastSeen) := by
  constructor
  · constructor
    · intro h
      by_cases hg : (alGet id.id os.messages).isSome
      · simp [OutputStream.Delete, hg] at h
      · simp [OutputStream.Get]
        exact Option.not_isSome_iff_eq_none.mp hg
    · intro h
      simp [OutputStream.Delete, OutputStream.Get] at *
      simp [h]
  · intro os' h
    by_cases hg : (alGet id.id os.messages).isSome
    · simp [OutputStream.Delete, hg] at h
      refine ⟨?_, ?_, ?_⟩
      · simp [← h, OutputStream.Get, alGet_alDel_self]
      · intro hne
        simp [← h, OutputStream.Get, alGet_alDel_ne _ _ _ (Ne.symm hne)]
      · simp [← h, OutputStream.LastSeen]
    · simp [OutputStream.Delete, hg] at h

theorem c3_amended_delete_exact_witness :
    osT3.Delete ⟨2, 0⟩ = some osT4 ∧
    osT4.Get ⟨2, 0⟩ = none ∧
    osT4.Get ⟨3, 0⟩ = osT3.Get ⟨3, 0⟩ ∧
    osT4.LastSeen = osT3.LastSeen := by
  have hd : osT3.Delete ⟨2, 0⟩ = some osT4 := by decide
  have h := (c3_amended_delete_exact osT3 ⟨2, 0⟩ ⟨3, 0⟩).2 osT4 hd
  exact ⟨hd, h.1, h.2.1 (by decide), h.2.2⟩

theorem find_first_gt {α : Type} (x : Int) (l : List (Int × α))
    (hs : l.Pairwise (fun a b => a.1 < b.1))
    (hex : ∃ e ∈ l, e.1 > x) :
    ∃ e ∈ l, e.1 > x ∧ l.find? (fun e => decide (e.1 > x)) = some e ∧
      ∀ e' ∈ l, e'.1 > x → e.1 ≤ e'.1 := by
  induction l with
  | nil => simp at hex
  | cons a t ih =>
    by_cases ha : a.1 > x
    · refine ⟨a, by simp, ha, ?_, ?_⟩
      · simp [List.find?, ha]
      · intro e' he' _
        rcases List.mem_cons.mp he' with h | h
        · simp [h]
        · exact le_of_lt ((List.pairwise_cons.mp hs).1 e' h)
    · have hex' : ∃ e ∈ t, e.1 > x := by
        rcases hex with ⟨e, he, hgt⟩
        rcases List.mem_cons.mp he with h | h
        · rw [h] at hgt; exact absurd hgt ha
        · exact ⟨e, h, hgt⟩
      rcases ih (List.pairwise_cons.mp hs).2 hex' with ⟨e, he, hgt, hfind, hmin⟩
      refine ⟨e, by simp [he], hgt, ?_, ?_⟩
      · simp [List.find?, ha, hfind]
      · intro e' he' hgt'
        rcases List.mem_cons.mp he' with h | h
        · rw [h] at hgt'; exact absurd hgt' ha
        · exact hmin e' h hgt'

/-- C9: whenever at least one stored batch has a primary id strictly
greater than `lastSeen`, `GetNext` returns the earliest such stored batch
— in particular this holds on any retained window, so resuming from ids
before, at, or beyond a deleted id still yields the next live
successor. -/
theorem c9_getnext_earliest_successor (os : OutputStream) (lastseen : RobustId)
    (hs : os.SortedKeys)
    (hex : ∃ e ∈ os.messages, e.1 > lastseen.id) :
    ∃ e ∈ os.messages, e.1 > lastseen.id ∧ os.GetNext lastseen = some e.2 ∧
      ∀ e' ∈ os.messages, e'.1 > lastseen.id → e.1 ≤ e'.1 := by
  rcases find_first_gt lastseen.id os.messages hs hex with ⟨e, he, hgt, hfind, hmin⟩
  exact ⟨e, he, hgt, by simp [OutputStream.GetNext, hfind], hmin⟩

theorem c9_getnext_earliest_successor_witness :
    osT4.SortedKeys ∧ (∃ e ∈ osT4.messages, e.1 > (2 : Int)) ∧
    ∃ e ∈ osT4.messages, e.1 > (2 : Int) ∧
      osT4.GetNext ⟨2, 1⟩ = some e.2 ∧
      ∀ e' ∈ osT4.messages, e'.1 > (2 : Int) → e.1 ≤ e'.1 := by
  have hs : osT4.SortedKeys := by
    simp [OutputStream.SortedKeys, osT4]
  have hex : ∃ e ∈ osT4.messages, e.1 > (2 : Int) :=
    ⟨(3, [{ Id := ⟨3, 1⟩ }]), by decide, by decide⟩
  exact ⟨hs, hex, c9_getnext_earliest_successor osT4 ⟨2, 1⟩ hs hex⟩

/-- C1: for every command verb with a declared minimum parameter count,
a message with fewer parameters never reaches the verb's handler — the
dispatch result is the same for every possible handler function — and
exactly one need-more-parameters reply addressed to the calling session
is synthesized; the KILL entry declares `MinParams` 1 while `cmdKill`
itself synthesizes the same single reply whenever fewer than 2
parameters arrive. -/
theorem c1_minparams_gate :
    (∀ (verb : String) (mp : Nat) (F : HandlerFn) (i : IRCServer) (s : Session)
        (r : Replyctx) (msg : IrcMessage),
      alGet verb CommandsMinParams = some mp →
      msg.command = verb →
      msg.params.length < mp →
      ircCommandDispatch { Func := F, MinParams := mp } i s r msg =
        (i, pushMsg r { ids := [s.Id] }
          { pref := some i.serverPref, command := ERR_NEEDMOREPARAMS,
            params := [s.Nick, msg.command, ("Not enough parameters")] })) ∧
    alGet ("KILL") CommandsMinParams = some 1 ∧
    (∀ (i : IRCServer) (s : Session) (r : Replyctx) (msg : IrcMessage),
      msg.params.length < 2 →
      cmdKill i s r msg =
        (i, pushMsg r { ids := [s.Id] }
          { pref := some i.serverPref, command := ERR_NEEDMOREPARAMS,
            params := [s.Nick, msg.command, ("Not enough parameters")] })) := by
  refine ⟨?_, by decide, ?_⟩
  · intro verb mp F i s r msg _ _ hlt
    simp [ircCommandDispatch, hlt, sendUser]
  · intro i s r msg hlt
    simp [cmdKill, hlt, sendUser]

def c1sess : Session := { Id := ⟨7, 0⟩, Nick := ("nick7"), loggedIn := true }

theorem c1_minparams_gate_witness :
    alGet ("KILL") CommandsMinParams = some 1 ∧
    ({ command := ("KILL"), params := [] } : IrcMessage).params.length < 1 ∧
    ircCommandDispatch { Func := cmdKill, MinParams := 1 } {} c1sess {}
        { command := ("KILL"), params := [] } =
      ({} , pushMsg {} { ids := [⟨7, 0⟩] }
        { pref := some ({} : IRCServer).serverPref, command := ERR_NEEDMOREPARAMS,
          params := [("nick7"), ("KILL"), ("Not enough parameters")] }) ∧
    ({ command := ("KILL"), params := [("x")] } : IrcMessage).params.length < 2 ∧
    cmdKill {} c1sess {} { command := ("KILL"), params := [("x")] } =
      ({} , pushMsg {} { ids := [⟨7, 0⟩] }
        { pref := some ({} : IRCServer).serverPref, command := ERR_NEEDMOREPARAMS,
          params := [("nick7"), ("KILL"), ("Not enough parameters")] }) := by
  refine ⟨by decide, by decide, ?_, by decide, ?_⟩
  · exact c1_minparams_gate.1 ("KILL") 1 cmdKill {} c1sess {}
      { command := ("KILL"), params := [] } (by decide) rfl (by decide)
  · exact c1_minparams_gate.2.2 {} c1sess {}
      { command := ("KILL"), params := [("x")] } (by decide)

-- One expanded mode change of the channel branch of `cmdMode`, split
-- into its effect on the channel, on the reply context, and on the
-- `queryOnly` flag (proof-side restatement of one loop iteration of
-- `applyChannelModes` for an authorized requester).

def modeStepChan (i : IRCServer) (m : ModeCmd) (c : Channel) : Channel :=
  if ¬ (m.sign = ('+') ∧ m.letter = ('b')) then
    let newvalue := m.sign = ('+')
    if m.letter = ('t') ∨ m.letter = ('s') ∨ m.letter = ('i') ∨ m.letter = ('n') then
      { c with modes := setModeFlag c.modes m.letter newvalue }
    else if m.letter = ('x') then
      if i.Config.captchaConfigured then
        { c with modes := setModeFlag c.modes m.letter newvalue }
      else c
    else if m.letter = ('o') then
      match alGet (NickToLower m.Param) c.nicks with
      | none => c
      | some perms =>
        if perms.chanop ≠ newvalue then
          { c with nicks := alSet (NickToLower m.Param) { chanop := newvalue } c.nicks }
        else c
    else c
  else c

def modeStepReply (i : IRCServer) (s : Session) (channelname : String) (m : ModeCmd)
    (c : Channel) (r : Replyctx) : Replyctx :=
  if ¬ (m.sign = ('+') ∧ m.letter = ('b')) then
    if m.letter = ('t') ∨ m.letter = ('s') ∨ m.letter = ('i') ∨ m.letter = ('n') then r
    else if m.letter = ('x') then
      if i.Config.captchaConfigured then r
      else
        sendUser s r
          { pref := some i.serverPref, command := ("NOTICE"),
            params := [s.Nick,
              ("Cannot set mode +x, no CaptchaURL/CaptchaHMACSecret configured")] }
    else if m.letter = ('o') then
      match alGet (NickToLower m.Param) c.nicks with
      | none =>
        sendUser s r
          { pref := some i.serverPref, command := ERR_USERNOTINCHANNEL,
            params := [s.Nick, m.Param, channelname, ("They aren't on that channel")] }
      | some _ => r
    else
      sendUser s r
        { pref := some i.serverPref, command := ERR_UNKNOWNMODE,
          params := [s.Nick, String.mk [m.letter], ("is unknown mode char to me")] }
  else
    sendUser s r
      { pref := some i.serverPref, command := RPL_ENDOFBANLIST,
        params := [s.Nick, channelname, ("End of Channel Ban List")] }

def modeStepQ (m : ModeCmd) (q : Bool) : Bool :=
  if ¬ (m.sign = ('+') ∧ m.letter = ('b')) then false else q

theorem acm_cons_true (i : IRCServer) (s : Session) (cn : String) (m : ModeCmd)
    (rest : List ModeCmd) (c : Channel) (r : Replyctx) (q : Bool) :
    applyChannelModes i s cn true (m :: rest) c r q =
      applyChannelModes i s cn true rest (modeStepChan i m c)
        (modeStepReply i s cn m c r) (modeStepQ m q) := by
  by_cases hb : m.sign = ('+') ∧ m.letter = ('b')
  · simp [applyChannelModes, modeStepChan, modeStepReply, modeStepQ, hb]
  · by_cases ht : m.letter = ('t') ∨ m.letter = ('s') ∨ m.letter = ('i') ∨ m.letter = ('n')
    · simp [applyChannelModes, modeStepChan, modeStepReply, modeStepQ, hb, ht]
    · by_cases hx : m.letter = ('x')
      · by_cases hc : i.Config.captchaConfigured <;>
          simp [applyChannelModes, modeStepChan, modeStepReply, modeStepQ, hb, ht, hx, hc]
      · by_cases ho : m.letter = ('o')
        · cases hgo : alGet (NickToLower m.Param) c.nicks with
          | none =>
            simp [applyChannelModes, modeStepChan, modeStepReply, modeStepQ,
              hb, ht, hx, ho, hgo]
          | some perms =>
            by_cases hne : perms.chanop ≠ (m.sign = ('+')) <;>
              simp [applyChannelModes, modeStepChan, modeStepReply, modeStepQ,
                hb, ht, hx, ho, hgo, hne]
        · simp [applyChannelModes, modeStepChan, modeStepReply, modeStepQ,
            hb, ht, hx, ho]

theorem acm_append_true (i : IRCServer) (s : Session) (cn : String)
    (ms1 ms2 : List ModeCmd) (c : Channel) (r : Replyctx) (q : Bool) :
    applyChannelModes i s cn true (ms1 ++ ms2) c r q =
      applyChannelModes i s cn true ms2
        (applyChannelModes i s cn true ms1 c r q).1
        (applyChannelModes i s cn true ms1 c r q).2.1
        (applyChannelModes i s cn true ms1 c r q).2.2.1 := by
  induction ms1 generalizing c r q with
  | nil => simp [applyChannelModes]
  | cons m rest ih =>
    rw [List.cons_append, acm_cons_true, acm_cons_true]
    exact ih _ _ _

theorem acm_chan_const (i : IRCServer) (s : Session) (cn : String)
    (ms : List ModeCmd) (c : Channel) (r r' : Replyctx) (q q' : Bool) :
    (applyChannelModes i s cn true ms c r q).1 =
      (applyChannelModes i s cn true ms c r' q').1 := by
  induction ms generalizing c r r' q q' with
  | nil => simp [applyChannelModes]
  | cons m rest ih =>
    rw [acm_cons_true, acm_cons_true]
    exact ih _ _ _ _ _

/-- A mode change that the channel branch does not recognize: not the
`+b` ban query, and not one of the handled letters. -/
def unknownChanMode (m : ModeCmd) : Prop :=
  ¬ (m.sign = ('+') ∧ m.letter = ('b')) ∧
  m.letter ∉ [('t'), ('s'), ('i'), ('n'), ('x'), ('o')]

instance (m : ModeCmd) : Decidable (unknownChanMode m) := by
  unfold unknownChanMode
  infer_instance

theorem step_unknown_chan (i : IRCServer) (m : ModeCmd) (c : Channel)
    (hm : unknownChanMode m) : modeStepChan i m c = c := by
  obtain ⟨hb, hl⟩ := hm
  simp at hl
  simp [modeStepChan, hb, hl]

theorem step_unknown_reply (i : IRCServer) (s : Session) (cn : String) (m : ModeCmd)
    (c : Channel) (r : Replyctx) (hm : unknownChanMode m) :
    modeStepReply i s cn m c r =
      sendUser s r
        { pref := some i.serverPref, command := ERR_UNKNOWNMODE,
          params := [s.Nick, String.mk [m.letter], ("is unknown mode char to me")] } := by
  obtain ⟨hb, hl⟩ := hm
  simp at hl
  simp [modeStepReply, hb, hl]

/-- C2: mode changes are applied one at a time in order; an unrecognized
letter anywhere in the expanded change list synthesizes exactly one
unknown-mode error reply addressed to the requester, leaves the channel
untouched, and does not abort the remaining changes — the channel state
the loop produces is the same as if the unrecognized letter had not been
present, so every recognized letter's change is applied and kept. -/
theorem c2_mode_partial_apply (i : IRCServer) (s : Session) (cn : String)
    (c : Channel) (r : Replyctx) (q : Bool) (msg : IrcMessage)
    (ms1 ms2 : List ModeCmd) (m : ModeCmd)
    (hnorm : normalizeModes msg = ms1 ++ m :: ms2)
    (hm : unknownChanMode m) :
    applyChannelModes i s cn true (normalizeModes msg) c r q =
      applyChannelModes i s cn true ms2
        (applyChannelModes i s cn true ms1 c r q).1
        (sendUser s (applyChannelModes i s cn true ms1 c r q).2.1
          { pref := some i.serverPref, command := ERR_UNKNOWNMODE,
            params := [s.Nick, String.mk [m.letter], ("is unknown mode char to me")] })
        false ∧
    (applyChannelModes i s cn true (normalizeModes msg) c r q).1 =
      (applyChannelModes i s cn true (ms1 ++ ms2) c r q).1 := by
  rw [hnorm]
  constructor
  · rw [acm_append_true, acm_cons_true, step_unknown_chan i m _ hm,
      step_unknown_reply i s cn m _ _ hm]
    have hq : modeStepQ m ((applyChannelModes i s cn true ms1 c r q).2.2.1) = false := by
      simp [modeStepQ, hm.1]
    rw [hq]
  · rw [acm_append_true, acm_cons_true, step_unknown_chan i m _ hm,
      acm_append_true i s cn ms1 ms2]
    exact acm_chan_const i s cn ms2 _ _ _ _ _

def c2msg : IrcMessage := { command := ("MODE"), params := [("#test"), ("+iz")] }
def c2m : ModeCmd := { sign := ('+'), letter := ('z') }
def c2chan : Channel :=
  { name := ("#Test"), nicks := [(("alice"), { chanop := true })],
    modes := [('n'), ('t')] }
def c2sess : Session := { Id := ⟨1, 0⟩, Nick := ("Alice"), loggedIn := true }

theorem c2_mode_partial_apply_witness :
    normalizeModes c2msg = [{ sign := ('+'), letter := ('i') }] ++ c2m :: [] ∧
    unknownChanMode c2m ∧
    (applyChannelModes {} c2sess ("#test") true (normalizeModes c2msg) c2chan {} true =
      applyChannelModes {} c2sess ("#test") true []
        (applyChannelModes {} c2sess ("#test") true
          [{ sign := ('+'), letter := ('i') }] c2chan {} true).1
        (sendUser c2sess (applyChannelModes {} c2sess ("#test") true
            [{ sign := ('+'), letter := ('i') }] c2chan {} true).2.1
          { pref := some ({} : IRCServer).serverPref, command := ERR_UNKNOWNMODE,
            params := [c2sess.Nick, String.mk [c2m.letter],
              ("is unknown mode char to me")] })
        false ∧
      (applyChannelModes {} c2sess ("#test") true (normalizeModes c2msg) c2chan {} true).1 =
        (applyChannelModes {} c2sess ("#test") true
          ([{ sign := ('+'), letter := ('i') }] ++ []) c2chan {} true).1) := by
  refine ⟨by decide, by decide, ?_⟩
  exact c2_mode_partial_apply {} c2sess ("#test") c2chan {} true c2msg
    [{ sign := ('+'), letter := ('i') }] [] c2m (by decide) (by decide)

theorem NickToLower_ne_empty (s : String) (h : s ≠ ("")) : NickToLower s ≠ ("") := by
  intro hn
  apply h
  obtain ⟨data⟩ := s
  unfold NickToLower at hn
  have h2 : (data.map foldChar) = [] := by
    have := congrArg String.data hn
    simpa using this
  have hd : data = [] := List.map_eq_nil_iff.mp h2
  simp [hd]

/-- C7: a logged-in session's NICK to a name whose case-folded form
equals its own succeeds as an in-place rename — the nickname index and
the channel tables are left untouched (no re-keying), no
nickname-in-use reply is produced, and only the session's display
nickname (with its origin prefix) changes; a NICK whose case-folded form
collides with a different live session's key is rejected with exactly
one nickname-in-use reply and leaves the server state, nickname index
included, unchanged. -/
theorem c7_nick_caps_rename_vs_collision :
    (∀ (i : IRCServer) (s : Session) (r : Replyctx) (msg : IrcMessage) (nick : String),
      msg.params = [nick] → nick ≠ ("") →
      s.loggedIn = true →
      IsValidNickname nick = true →
      IsServicesNickname nick = false →
      NickToLower nick = NickToLower s.Nick →
      alGet (NickToLower nick) i.nicks = some s.Id →
      alGet (NickToLower nick) i.svsholds = none →
      s.Nick ≠ ("") →
      (cmdNick i s r msg).1.nicks = i.nicks ∧
      (cmdNick i s r msg).1.channels = i.channels ∧
      alGet s.Id (cmdNick i s r msg).1.sessions =
        some (updateIrcPref { s with Nick := nick }) ∧
      (∃ intr2, (cmdNick i s r msg).2.output =
        r.output ++
          [⟨{ ids := [s.Id] },
            { pref := some s.ircPref, command := ("NICK"), params := [nick] }⟩,
           ⟨intr2, { pref := some s.ircPref, command := ("NICK"), params := [nick] }⟩,
           ⟨{ services := true },
            { pref := some s.ircPref, command := ("NICK"), params := [nick] }⟩])) ∧
    (∀ (i : IRCServer) (s : Session) (r : Replyctx) (msg : IrcMessage) (nick : String),
      msg.params = [nick] → nick ≠ ("") →
      s.loggedIn = true →
      IsValidNickname nick = true →
      NickToLower nick ≠ NickToLower s.Nick →
      (alGet (NickToLower nick) i.nicks).isSome = true →
      cmdNick i s r msg =
        (i, sendUser s r
          { pref := some i.serverPref, command := ERR_NICKNAMEINUSE,
            params := [s.Nick, nick, ("Nickname is already in use")] })) := by
  constructor
  · intro i s r msg nick hparams hne hlog hval hsvc hcaps hidx hhold hsn
    have holdne : NickToLower s.Nick ≠ ("") := NickToLower_ne_empty _ hsn
    have hidx' : alGet (NickToLower s.Nick) i.nicks = some s.Id := hcaps ▸ hidx
    have hhold' : alGet (NickToLower s.Nick) i.svsholds = none := hcaps ▸ hhold
    simp [cmdNick, hparams, hne, hlog, hval, hsvc, hcaps, hidx, hhold, holdne,
      hidx', hhold', putSession, sendUser, sendServices, sendCommonChannels,
      pushMsg, updateIrcPref, alSet_eq_self _ _ _ hidx', alGet_alSet_self]
  · intro i s r msg nick hparams hne hlog hval hdiff hclash
    simp [cmdNick, hparams, hne, hlog, hval, hdiff, hclash, sendUser]

def c7sessA : Session :=
  { Id := ⟨1, 0⟩, Nick := ("Alice"), Username := ("al"), loggedIn := true }
def c7srv : IRCServer :=
  { nicks := [(("alice"), ⟨1, 0⟩), (("bob"), ⟨2, 0⟩)],
    sessions := [(⟨1, 0⟩, c7sessA), (⟨2, 0⟩, { Id := ⟨2, 0⟩, Nick := ("Bob") })] }

theorem c7_nick_caps_rename_vs_collision_witness :
    (NickToLower ("ALICE") = NickToLower c7sessA.Nick ∧
      alGet (NickToLower ("ALICE")) c7srv.nicks = some c7sessA.Id ∧
      (cmdNick c7srv c7sessA {} { command := ("NICK"), params := [("ALICE")] }).1.nicks =
        c7srv.nicks ∧
      alGet c7sessA.Id
          (cmdNick c7srv c7sessA {} { command := ("NICK"), params := [("ALICE")] }).1.sessions =
        some (updateIrcPref { c7sessA with Nick := ("ALICE") })) ∧
    (NickToLower ("BOB") ≠ NickToLower c7sessA.Nick ∧
      (alGet (NickToLower ("BOB")) c7srv.nicks).isSome = true ∧
      cmdNick c7srv c7sessA {} { command := ("NICK"), params := [("BOB")] } =
        (c7srv, sendUser c7sessA {}
          { pref := some c7srv.serverPref, command := ERR_NICKNAMEINUSE,
            params := [c7sessA.Nick, ("BOB"), ("Nickname is already in use")] })) := by
  have h1 := c7_nick_caps_rename_vs_collision.1 c7srv c7sessA {}
    { command := ("NICK"), params := [("ALICE")] } ("ALICE")
    rfl (by decide) (by decide) (by decide) (by decide) (by decide) (by decide)
    (by decide) (by decide)
  have h2 := c7_nick_caps_rename_vs_collision.2 c7srv c7sessA {}
    { command := ("NICK"), params := [("BOB")] } ("BOB")
    rfl (by decide) (by decide) (by decide) (by decide) (by decide)
  exact ⟨⟨by decide, by decide, h1.1, h1.2.2.1⟩, ⟨by decide, by decide, h2⟩⟩

/-- C8: a NICK to a name under an active hold is rejected with an
erroneous-nickname reply (and no state change) as long as the
requester's last-activity timestamp is not after the hold's added time
plus its duration; once the last-activity timestamp is past that expiry
the same NICK succeeds — the session is renamed, the nickname index
gains the new key — and the hold entry is deleted from the hold table as
a side effect. -/
theorem c8_nick_hold :
    (∀ (i : IRCServer) (s : Session) (r : Replyctx) (msg : IrcMessage)
        (nick : String) (hold : Hold),
      msg.params = [nick] → nick ≠ ("") →
      s.loggedIn = true →
      IsValidNickname nick = true →
      IsServicesNickname nick = false →
      alGet (NickToLower nick) i.nicks = none →
      alGet (NickToLower nick) i.svsholds = some hold →
      s.LastActivity ≤ hold.added + hold.duration →
      cmdNick i s r msg =
        (i, sendUser s r
          { pref := some i.serverPref, command := ERR_ERRONEUSNICKNAME,
            params := [s.Nick, nick, ("Erroneous Nickname: ") ++ hold.reason] })) ∧
    (∀ (i : IRCServer) (s : Session) (r : Replyctx) (msg : IrcMessage)
        (nick : String) (hold : Hold),
      msg.params = [nick] → nick ≠ ("") →
      s.loggedIn = true →
      IsValidNickname nick = true →
      IsServicesNickname nick = false →
      alGet (NickToLower nick) i.nicks = none →
      NickToLower nick ≠ NickToLower s.Nick →
      alGet (NickToLower nick) i.svsholds = some hold →
      hold.added + hold.duration < s.LastActivity →
      s.Nick ≠ ("") →
      (cmdNick i s r msg).1.svsholds = alDel (NickToLower nick) i.svsholds ∧
      alGet (NickToLower nick) (cmdNick i s r msg).1.nicks = some s.Id ∧
      alGet s.Id (cmdNick i s r msg).1.sessions =
        some (updateIrcPref { s with Nick := nick })) := by
  constructor
  · intro i s r msg nick hold hparams hne hlog hval hsvc hfree hh hact
    simp [cmdNick, hparams, hne, hlog, hval, hsvc, hfree, hh, hact, sendUser]
  · intro i s r msg nick hold hparams hne hlog hval hsvc hfree hdiff hh hexp hsn
    have holdne : NickToLower s.Nick ≠ ("") := NickToLower_ne_empty _ hsn
    have hlt : ¬ s.LastActivity ≤ hold.added + hold.duration := not_le.mpr hexp
    simp [cmdNick, hparams, hne, hlog, hval, hsvc, hfree, hdiff, hh, hlt, holdne,
      putSession, updateIrcPref, sendUser, sendServices, sendCommonChannels, pushMsg,
      alGet_alDel_ne _ _ _ (Ne.symm hdiff), alGet_alSet_self]

def c8hold : Hold := { added := 0, duration := 10, reason := ("held by services") }
def c8sessEarly : Session :=
  { Id := ⟨1, 0⟩, Nick := ("Alice"), loggedIn := true, LastActivity := 5 }
def c8sessLate : Session :=
  { Id := ⟨1, 0⟩, Nick := ("Alice"), loggedIn := true, LastActivity := 11 }
def c8srvEarly : IRCServer :=
  { nicks := [(("alice"), ⟨1, 0⟩)], sessions := [(⟨1, 0⟩, c8sessEarly)],
    svsholds := [(("carol"), c8hold)] }
def c8srvLate : IRCServer :=
  { nicks := [(("alice"), ⟨1, 0⟩)], sessions := [(⟨1, 0⟩, c8sessLate)],
    svsholds := [(("carol"), c8hold)] }

theorem c8_nick_hold_witness :
    (c8sessEarly.LastActivity ≤ c8hold.added + c8hold.duration ∧
      cmdNick c8srvEarly c8sessEarly {} { command := ("NICK"), params := [("Carol")] } =
        (c8srvEarly, sendUser c8sessEarly {}
          { pref := some c8srvEarly.serverPref, command := ERR_ERRONEUSNICKNAME,
            params := [c8sessEarly.Nick, ("Carol"),
              ("Erroneous Nickname: ") ++ c8hold.reason] })) ∧
    (c8hold.added + c8hold.duration < c8sessLate.LastActivity ∧
      (cmdNick c8srvLate c8sessLate {} { command := ("NICK"), params := [("Carol")] }).1.svsholds =
        alDel (NickToLower ("Carol")) c8srvLate.svsholds ∧
      alGet (NickToLower ("Carol"))
          (cmdNick c8srvLate c8sessLate {} { command := ("NICK"), params := [("Carol")] }).1.nicks =
        some c8sessLate.Id) := by
  have h1 := c8_nick_hold.1 c8srvEarly c8sessEarly {}
    { command := ("NICK"), params := [("Carol")] } ("Carol") c8hold
    rfl (by decide) (by decide) (by decide) (by decide) (by decide) (by decide)
    (by decide)
  have h2 := c8_nick_hold.2 c8srvLate c8sessLate {}
    { command := ("NICK"), params := [("Carol")] } ("Carol") c8hold
    rfl (by decide) (by decide) (by decide) (by decide) (by decide) (by decide)
    (by decide) (by decide) (by decide)
  exact ⟨⟨by decide, h1⟩, ⟨by decide, h2.1, h2.2.1⟩⟩

theorem cmdNames_state (i : IRCServer) (s : Session) (r : Replyctx) (msg : IrcMessage) :
    (cmdNames i s r msg).1 = i := by
  simp only [cmdNames]
  split
  · split <;> rfl
  · rfl

theorem cmdMode_single_state (i : IRCServer) (s : Session) (r : Replyctx)
    (cmd cn : String) :
    (cmdMode i s r { command := cmd, params := [cn] }).1 = i := by
  have hnm : normalizeModes { command := cmd, params := [cn] } = [] := by
    simp [normalizeModes]
  simp only [cmdMode, hnm]
  split
  · split
    · rfl
    · simp
  · split
    · split
      · rfl
      · split
        · rfl
        · simp
    · rfl

theorem cmdTopic_single_state (i : IRCServer) (s : Session) (r : Replyctx)
    (cmd cn : String) :
    (cmdTopic i s r { command := cmd, params := [cn] }).1 = i := by
  simp only [cmdTopic]
  split
  · rfl
  · split
    · simp_all
    · split
      · rfl
      · split
        · split <;> rfl
        · simp_all

theorem cmdJoin_fresh (i : IRCServer) (s : Session) (r : Replyctx) (msg : IrcMessage)
    (cn : String)
    (hparams : msg.params = [cn])
    (hsplit : splitComma cn = [cn])
    (hval : IsValidChannel cn = true)
    (hnone : alGet (ChanToLower cn) i.channels = none)
    (hlimit : i.Config.channelLimit = 0) :
    alGet (ChanToLower cn) (cmdJoin i s r msg).1.channels =
      some { name := cn, modes := [('n'), ('t')],
             nicks := [(NickToLower s.Nick, { chanop := true })] } ∧
    alGet s.Id (cmdJoin i s r msg).1.sessions =
      some { s with Channels := setInsert s.Channels (ChanToLower cn) } := by
  simp [cmdJoin, hparams, hsplit, cmdJoinLoop, cmdJoinOne, hval, hnone, hlimit,
    IRCServer.ChannelLimit, cmdJoinCommit, putSession,
    cmdNames_state, cmdMode_single_state, cmdTopic_single_state,
    alGet_alSet_self, alSet, alGet]

theorem cmdJoin_existing (i : IRCServer) (s : Session) (r : Replyctx) (msg : IrcMessage)
    (cn : String) (c : Channel)
    (hparams : msg.params = [cn])
    (hsplit : splitComma cn = [cn])
    (hval : IsValidChannel cn = true)
    (hsome : alGet (ChanToLower cn) i.channels = some c)
    (hni : c.modes.contains ('i') = false)
    (hnx : c.modes.contains ('x') = false)
    (hnotmem : alGet (NickToLower s.Nick) c.nicks = none) :
    alGet (ChanToLower cn) (cmdJoin i s r msg).1.channels =
      some { c with nicks := alSet (NickToLower s.Nick) { chanop := false } c.nicks } := by
  have hni' : ('i') ∉ c.modes := by simpa using hni
  have hnx' : ('x') ∉ c.modes := by simpa using hnx
  simp [cmdJoin, hparams, hsplit, cmdJoinLoop, cmdJoinOne, hval, hsome, hni', hnx',
    hnotmem, cmdJoinCommit, putSession,
    cmdNames_state, cmdMode_single_state, cmdTopic_single_state,
    alGet_alSet_self]

theorem cmdJoin_gated_invite (i : IRCServer) (s : Session) (r : Replyctx) (msg : IrcMessage)
    (cn : String) (c : Channel)
    (hparams : msg.params = [cn])
    (hsplit : splitComma cn = [cn])
    (hval : IsValidChannel cn = true)
    (hsome : alGet (ChanToLower cn) i.channels = some c)
    (hgate : c.modes.contains ('i') = true ∨ c.modes.contains ('x') = true)
    (hinvited : s.invitedTo.contains (ChanToLower cn) = true)
    (hnotmem : alGet (NickToLower s.Nick) c.nicks = none) :
    alGet (ChanToLower cn) (cmdJoin i s r msg).1.channels =
      some { c with nicks := alSet (NickToLower s.Nick) { chanop := false } c.nicks } ∧
    alGet s.Id (cmdJoin i s r msg).1.sessions =
      some { s with invitedTo := setRemove s.invitedTo (ChanToLower cn),
                    Channels := setInsert s.Channels (ChanToLower cn) } := by
  have hinv' : ChanToLower cn ∈ s.invitedTo := by simpa using hinvited
  rcases hgate with hi | hx
  · have hi' : ('i') ∈ c.modes := by simpa using hi
    simp [cmdJoin, hparams, hsplit, cmdJoinLoop, cmdJoinOne, hval, hsome, hi',
      hinv', hnotmem, cmdJoinCommit, putSession,
      cmdNames_state, cmdMode_single_state, cmdTopic_single_state,
      alGet_alSet_self]
  · have hx' : ('x') ∈ c.modes := by simpa using hx
    simp [cmdJoin, hparams, hsplit, cmdJoinLoop, cmdJoinOne, hval, hsome, hx',
      hinv', hnotmem, cmdJoinCommit, putSession,
      cmdNames_state, cmdMode_single_state, cmdTopic_single_state,
      alGet_alSet_self]

theorem cmdJoin_inviteonly_reject (i : IRCServer) (s : Session) (r : Replyctx)
    (msg : IrcMessage) (cn : String) (c : Channel)
    (hparams : msg.params = [cn])
    (hsplit : splitComma cn = [cn])
    (hval : IsValidChannel cn = true)
    (hsome : alGet (ChanToLower cn) i.channels = some c)
    (hi : c.modes.contains ('i') = true)
    (hnotinv : s.invitedTo.contains (ChanToLower cn) = false) :
    cmdJoin i s r msg =
      (i, sendUser s r
        { pref := some i.serverPref, command := ERR_INVITEONLYCHAN,
          params := [s.Nick, c.name, ("Cannot join channel (+i)")] }) := by
  have hi' : ('i') ∈ c.modes := by simpa using hi
  have hnotinv' : ChanToLower cn ∉ s.invitedTo := by simpa using hnotinv
  simp [cmdJoin, hparams, hsplit, cmdJoinLoop, cmdJoinOne, hval, hsome, hi', hnotinv',
    sendUser]

theorem cmdPart_channels (i : IRCServer) (s : Session) (r : Replyctx) (msg : IrcMessage)
    (cn : String)
    (hparams : msg.params = [cn])
    (hsplit : splitComma cn = [cn]) :
    (cmdPart i s r msg).1.channels = i.channels ∨
    ∃ c, alGet (ChanToLower cn) i.channels = some c ∧
      (cmdPart i s r msg).1.channels =
        (maybeDeleteChannel i { c with nicks := alDel (NickToLower s.Nick) c.nicks }).channels := by
  cases hch : alGet (ChanToLower cn) i.channels with
  | none =>
    left
    simp [cmdPart, hparams, hsplit, cmdPartLoop, cmdPartOne, hch]
  | some c =>
    by_cases hm : (alGet (NickToLower s.Nick) c.nicks).isNone
    · left
      simp [cmdPart, hparams, hsplit, cmdPartLoop, cmdPartOne, hch, hm]
    · right
      refine ⟨c, rfl, ?_⟩
      simp [cmdPart, hparams, hsplit, cmdPartLoop, cmdPartOne, hch, hm,
        putSession, maybeDeleteChannel]

theorem maybeDeleteChannel_inv (i : IRCServer) (c : Channel)
    (hinv : ∀ e ∈ i.channels, e.2.nicks ≠ [])
    (e : String × Channel) (he : e ∈ (maybeDeleteChannel i c).channels) :
    e.2.nicks ≠ [] := by
  by_cases hemp : c.nicks.isEmpty
  · simp [maybeDeleteChannel, hemp] at he
    exact hinv e (mem_alDel _ _ _ he)
  · simp [maybeDeleteChannel, hemp] at he
    rcases mem_alSet _ _ _ _ he with h | h
    · rw [h]
      simpa [List.isEmpty_iff] using hemp
    · exact hinv e h

theorem cmdPart_inv (i : IRCServer) (s : Session) (r : Replyctx) (msg : IrcMessage)
    (cn : String)
    (hparams : msg.params = [cn])
    (hsplit : splitComma cn = [cn])
    (hinv : ∀ e ∈ i.channels, e.2.nicks ≠ []) :
    ∀ e ∈ (cmdPart i s r msg).1.channels, e.2.nicks ≠ [] := by
  rcases cmdPart_channels i s r msg cn hparams hsplit with h | ⟨c, _, h⟩
  · rw [h]; exact hinv
  · rw [h]
    exact maybeDeleteChannel_inv i _ hinv

theorem cmdPart_sole (i : IRCServer) (s : Session) (r : Replyctx) (msg : IrcMessage)
    (cn : String) (c : Channel) (p : MemberPerms)
    (hparams : msg.params = [cn])
    (hsplit : splitComma cn = [cn])
    (hsome : alGet (ChanToLower cn) i.channels = some c)
    (hsole : c.nicks = [(NickToLower s.Nick, p)])
    (hkey : ChanToLower c.name = ChanToLower cn) :
    alGet (ChanToLower cn) (cmdPart i s r msg).1.channels = none ∧
    (cmdPart i s r msg).1.Config = i.Config := by
  have hd : alDel (NickToLower s.Nick) [(NickToLower s.Nick, p)] = [] := by
    simp [alDel]
  simp [cmdPart, hparams, hsplit, cmdPartLoop, cmdPartOne, hsome, hsole, alGet, hd,
    maybeDeleteChannel, putSession, hkey, alGet_alDel_self]

theorem cmdKick_channels (i : IRCServer) (s : Session) (r : Replyctx) (msg : IrcMessage) :
    (cmdKick i s r msg).1.channels = i.channels ∨
    ∃ c, alGet (ChanToLower (msg.params.getD 0 (""))) i.channels = some c ∧
      (cmdKick i s r msg).1.channels =
        (maybeDeleteChannel i
          { c with nicks := alDel (NickToLower (msg.params.getD 1 (""))) c.nicks }).channels := by
  simp only [cmdKick]
  split
  · left; rfl
  · split
    · left; rfl
    · split
      · left; rfl
      · split
        · left; rfl
        · right
          refine ⟨_, by assumption, ?_⟩
          simp [putSession, maybeDeleteChannel]

theorem cmdKick_inv (i : IRCServer) (s : Session) (r : Replyctx) (msg : IrcMessage)
    (hinv : ∀ e ∈ i.channels, e.2.nicks ≠ []) :
    ∀ e ∈ (cmdKick i s r msg).1.channels, e.2.nicks ≠ [] := by
  rcases cmdKick_channels i s r msg with h | ⟨c, _, h⟩
  · rw [h]; exact hinv
  · rw [h]
    exact maybeDeleteChannel_inv i _ hinv

theorem setRemove_not_contains (l : List String) (x : String) :
    (setRemove l x).contains x = false := by
  have hx : x ∉ setRemove l x := by simp [setRemove]
  simpa using hx

/-- C5: the first session to JOIN a valid channel name that does not yet
exist creates the channel and is granted the channel-operator bit; a
session joining an already-existing channel it is not yet a member of is
admitted without the operator bit. -/
theorem c5_first_joiner_operator :
    (∀ (i : IRCServer) (s : Session) (r : Replyctx) (msg : IrcMessage) (cn : String),
      msg.params = [cn] → splitComma cn = [cn] → IsValidChannel cn = true →
      alGet (ChanToLower cn) i.channels = none → i.Config.channelLimit = 0 →
      ∃ c', alGet (ChanToLower cn) (cmdJoin i s r msg).1.channels = some c' ∧
        alGet (NickToLower s.Nick) c'.nicks = some { chanop := true }) ∧
    (∀ (i : IRCServer) (s : Session) (r : Replyctx) (msg : IrcMessage) (cn : String)
        (c : Channel),
      msg.params = [cn] → splitComma cn = [cn] → IsValidChannel cn = true →
      alGet (ChanToLower cn) i.channels = some c →
      c.modes.contains ('i') = false → c.modes.contains ('x') = false →
      alGet (NickToLower s.Nick) c.nicks = none →
      ∃ c', alGet (ChanToLower cn) (cmdJoin i s r msg).1.channels = some c' ∧
        alGet (NickToLower s.Nick) c'.nicks = some { chanop := false }) := by
  constructor
  · intro i s r msg cn h1 h2 h3 h4 h5
    refine ⟨_, (cmdJoin_fresh i s r msg cn h1 h2 h3 h4 h5).1, ?_⟩
    simp [alGet]
  · intro i s r msg cn c h1 h2 h3 h4 h5 h6 h7
    refine ⟨_, cmdJoin_existing i s r msg cn c h1 h2 h3 h4 h5 h6 h7, ?_⟩
    exact alGet_alSet_self _ _ _

def c5sess : Session := { Id := ⟨1, 0⟩, Nick := ("Alice"), loggedIn := true }
def c5srv : IRCServer :=
  { nicks := [(("alice"), ⟨1, 0⟩)], sessions := [(⟨1, 0⟩, c5sess)] }
def c5sessB : Session := { Id := ⟨2, 0⟩, Nick := ("Bob"), loggedIn := true }
def c5chan : Channel :=
  { name := ("#chan"), modes := [('n'), ('t')],
    nicks := [(("alice"), { chanop := true })] }
def c5srvB : IRCServer :=
  { nicks := [(("alice"), ⟨1, 0⟩), (("bob"), ⟨2, 0⟩)],
    sessions := [(⟨1, 0⟩, c5sess), (⟨2, 0⟩, c5sessB)],
    channels := [(("#chan"), c5chan)] }

theorem c5_first_joiner_operator_witness :
    (alGet (ChanToLower ("#chan")) c5srv.channels = none ∧
      ∃ c', alGet (ChanToLower ("#chan"))
          (cmdJoin c5srv c5sess {} { command := ("JOIN"), params := [("#chan")] }).1.channels =
          some c' ∧
        alGet (NickToLower c5sess.Nick) c'.nicks = some { chanop := true }) ∧
    (alGet (ChanToLower ("#chan")) c5srvB.channels = some c5chan ∧
      ∃ c', alGet (ChanToLower ("#chan"))
          (cmdJoin c5srvB c5sessB {} { command := ("JOIN"), params := [("#chan")] }).1.channels =
          some c' ∧
        alGet (NickToLower c5sessB.Nick) c'.nicks = some { chanop := false }) := by
  constructor
  · exact ⟨by decide, c5_first_joiner_operator.1 c5srv c5sess {}
      { command := ("JOIN"), params := [("#chan")] } ("#chan")
      rfl (by decide) (by decide) (by decide) (by decide)⟩
  · exact ⟨by decide, c5_first_joiner_operator.2 c5srvB c5sessB {}
      { command := ("JOIN"), params := [("#chan")] } ("#chan") c5chan
      rfl (by decide) (by decide) (by decide) (by decide) (by decide) (by decide)⟩

/-- C6: after a membership-removing PART or KICK, no zero-member channel
is present in the Directory (the emptied channel is removed immediately),
and once a sole-member channel has been emptied by PART, a JOIN of the
same name by another session re-creates it with a fresh operator
grant. -/
theorem c6_empty_channel_removed :
    (∀ (i : IRCServer) (s : Session) (r : Replyctx) (msg : IrcMessage) (cn : String),
      msg.params = [cn] → splitComma cn = [cn] →
      (∀ e ∈ i.channels, e.2.nicks ≠ []) →
      ∀ e ∈ (cmdPart i s r msg).1.channels, e.2.nicks ≠ []) ∧
    (∀ (i : IRCServer) (s : Session) (r : Replyctx) (msg : IrcMessage),
      (∀ e ∈ i.channels, e.2.nicks ≠ []) →
      ∀ e ∈ (cmdKick i s r msg).1.channels, e.2.nicks ≠ []) ∧
    (∀ (i : IRCServer) (s t : Session) (r r' : Replyctx) (msg msg' : IrcMessage)
        (cn : String) (c : Channel) (p : MemberPerms),
      msg.params = [cn] → splitComma cn = [cn] →
      alGet (ChanToLower cn) i.channels = some c →
      c.nicks = [(NickToLower s.Nick, p)] →
      ChanToLower c.name = ChanToLower cn →
      msg'.params = [cn] → IsValidChannel cn = true → i.Config.channelLimit = 0 →
      alGet (ChanToLower cn) (cmdPart i s r msg).1.channels = none ∧
      ∃ c', alGet (ChanToLower cn)
          (cmdJoin (cmdPart i s r msg).1 t r' msg').1.channels = some c' ∧
        alGet (NickToLower t.Nick) c'.nicks = some { chanop := true }) := by
  refine ⟨cmdPart_inv, cmdKick_inv, ?_⟩
  intro i s t r r' msg msg' cn c p h1 h2 h3 h4 h5 h6 h7 h8
  have hsole := cmdPart_sole i s r msg cn c p h1 h2 h3 h4 h5
  have hlim : ((cmdPart i s r msg).1).Config.channelLimit = 0 := by
    rw [hsole.2]; exact h8
  refine ⟨hsole.1, ⟨_, (cmdJoin_fresh ((cmdPart i s r msg).1) t r' msg' cn
    h6 h2 h7 hsole.1 hlim).1, ?_⟩⟩
  simp [alGet]

def c6sess : Session :=
  { Id := ⟨1, 0⟩, Nick := ("Alice"), loggedIn := true, Channels := [("#chan")] }
def c6sessB : Session := { Id := ⟨2, 0⟩, Nick := ("Bob"), loggedIn := true }
def c6chan : Channel :=
  { name := ("#chan"), modes := [('n'), ('t')],
    nicks := [(("alice"), { chanop := true })] }
def c6srv : IRCServer :=
  { nicks := [(("alice"), ⟨1, 0⟩), (("bob"), ⟨2, 0⟩)],
    sessions := [(⟨1, 0⟩, c6sess), (⟨2, 0⟩, c6sessB)],
    channels := [(("#chan"), c6chan)] }

theorem c6_empty_channel_removed_witness :
    ((∀ e ∈ c6srv.channels, e.2.nicks ≠ []) ∧
      ∀ e ∈ (cmdPart c6srv c6sess {}
          { command := ("PART"), params := [("#chan")] }).1.channels, e.2.nicks ≠ []) ∧
    (alGet (ChanToLower ("#chan"))
        (cmdPart c6srv c6sess {} { command := ("PART"), params := [("#chan")] }).1.channels =
      none ∧
      ∃ c', alGet (ChanToLower ("#chan"))
          (cmdJoin (cmdPart c6srv c6sess {}
              { command := ("PART"), params := [("#chan")] }).1 c6sessB {}
            { command := ("JOIN"), params := [("#chan")] }).1.channels = some c' ∧
        alGet (NickToLower c6sessB.Nick) c'.nicks = some { chanop := true }) := by
  constructor
  · refine ⟨by decide, ?_⟩
    exact c6_empty_channel_removed.1 c6srv c6sess {}
      { command := ("PART"), params := [("#chan")] } ("#chan") rfl (by decide)
      (by decide)
  · have h := c6_empty_channel_removed.2.2 c6srv c6sess c6sessB {} {}
      { command := ("PART"), params := [("#chan")] }
      { command := ("JOIN"), params := [("#chan")] } ("#chan") c6chan
      { chanop := true } rfl (by decide) (by decide) (by decide) (by decide) rfl
      (by decide) (by decide)
    exact ⟨h.1, h.2⟩

/-- C10: joining a channel whose invite-only or verification-gated mode
is set consumes the invitation — after the join the channel is no longer
in the session's invited-to set while the channel's modes are unchanged
and the session is a member — so a later JOIN of the same invite-only
channel without a fresh INVITE is rejected with the invite-only error
and leaves the state unchanged. -/
theorem c10_invite_valid_once :
    (∀ (i : IRCServer) (s : Session) (r : Replyctx) (msg : IrcMessage) (cn : String)
        (c : Channel),
      msg.params = [cn] → splitComma cn = [cn] → IsValidChannel cn = true →
      alGet (ChanToLower cn) i.channels = some c →
      (c.modes.contains ('i') = true ∨ c.modes.contains ('x') = true) →
      s.invitedTo.contains (ChanToLower cn) = true →
      alGet (NickToLower s.Nick) c.nicks = none →
      alGet s.Id (cmdJoin i s r msg).1.sessions =
        some { s with invitedTo := setRemove s.invitedTo (ChanToLower cn),
                      Channels := setInsert s.Channels (ChanToLower cn) } ∧
      (setRemove s.invitedTo (ChanToLower cn)).contains (ChanToLower cn) = false ∧
      (∃ c', alGet (ChanToLower cn) (cmdJoin i s r msg).1.channels = some c' ∧
        c'.modes = c.modes ∧
        alGet (NickToLower s.Nick) c'.nicks = some { chanop := false })) ∧
    (∀ (i : IRCServer) (s : Session) (r : Replyctx) (msg : IrcMessage) (cn : String)
        (c : Channel),
      msg.params = [cn] → splitComma cn = [cn] → IsValidChannel cn = true →
      alGet (ChanToLower cn) i.channels = some c →
      c.modes.contains ('i') = true →
      s.invitedTo.contains (ChanToLower cn) = false →
      cmdJoin i s r msg =
        (i, sendUser s r
          { pref := some i.serverPref, command := ERR_INVITEONLYCHAN,
            params := [s.Nick, c.name, ("Cannot join channel (+i)")] })) := by
  constructor
  · intro i s r msg cn c h1 h2 h3 h4 h5 h6 h7
    have hg := cmdJoin_gated_invite i s r msg cn c h1 h2 h3 h4 h5 h6 h7
    refine ⟨hg.2, setRemove_not_contains _ _, ⟨_, hg.1, rfl, ?_⟩⟩
    exact alGet_alSet_self _ _ _
  · exact cmdJoin_inviteonly_reject

def c10sess : Session :=
  { Id := ⟨1, 0⟩, Nick := ("Alice"), loggedIn := true, invitedTo := [("#sec")] }
def c10chan : Channel :=
  { name := ("#sec"), modes := [('n'), ('t'), ('i')],
    nicks := [(("bob"), { chanop := true })] }
def c10srv : IRCServer :=
  { nicks := [(("alice"), ⟨1, 0⟩), (("bob"), ⟨2, 0⟩)],
    sessions := [(⟨1, 0⟩, c10sess), (⟨2, 0⟩, { Id := ⟨2, 0⟩, Nick := ("Bob") })],
    channels := [(("#sec"), c10chan)] }
def c10sessAfter : Session :=
  { c10sess with invitedTo := setRemove c10sess.invitedTo (ChanToLower ("#sec")),
                 Channels := setInsert c10sess.Channels (ChanToLower ("#sec")) }

theorem c10_invite_valid_once_witness :
    (c10sess.invitedTo.contains (ChanToLower ("#sec")) = true ∧
      alGet c10sess.Id
          (cmdJoin c10srv c10sess {} { command := ("JOIN"), params := [("#sec")] }).1.sessions =
        some c10sessAfter ∧
      c10sessAfter.invitedTo.contains (ChanToLower ("#sec")) = false) ∧
    (c10sessAfter.invitedTo.contains (ChanToLower ("#sec")) = false ∧
      cmdJoin c10srv c10sessAfter {} { command := ("JOIN"), params := [("#sec")] } =
        (c10srv, sendUser c10sessAfter {}
          { pref := some c10srv.serverPref, command := ERR_INVITEONLYCHAN,
            params := [c10sessAfter.Nick, c10chan.name,
              ("Cannot join channel (+i)")] })) := by
  constructor
  · have h := c10_invite_valid_once.1 c10srv c10sess {}
      { command := ("JOIN"), params := [("#sec")] } ("#sec") c10chan
      rfl (by decide) (by decide) (by decide) (Or.inl (by decide)) (by decide)
      (by decide)
    exact ⟨by decide, h.1, by decide⟩
  · exact ⟨by decide, c10_invite_valid_once.2 c10srv c10sessAfter {}
      { command := ("JOIN"), params := [("#sec")] } ("#sec") c10chan
      rfl (by decide) (by decide) (by decide) (by decide) (by decide)⟩

/-- The claim's reading of QUIT (refinement reference, following the
spec's words): the removal notification is synthesized first, with its
delivery interest computed from the Directory as it stands immediately
before the removal, and only then is the session deletion committed. -/
def cmdQuitNotifyFirst (i : IRCServer) (s : Session) (r : Replyctx) (msg : IrcMessage) :
    HandlerResult :=
  if s.loggedIn then
    let m : IrcMessage :=
      { pref := some s.ircPref, command := ("QUIT"), params := [msg.trailing] }
    let r := sendServices (sendCommonChannels i s r m) m
    let r := sendUser s r
      { command := ("ERROR"),
        params := [("Closing Link: ") ++ s.Nick ++ ("[") ++ s.ircPref.host ++
          ("] (") ++ msg.trailing ++ (")")] }
    (DeleteSession i s, r)
  else (DeleteSession i s, r)

def c4sessA : Session :=
  { Id := ⟨1, 0⟩, Nick := ("Alice"), loggedIn := true, Channels := [("#chan")] }
def c4sessB : Session :=
  { Id := ⟨2, 0⟩, Nick := ("Bob"), loggedIn := true, Channels := [("#chan")] }
def c4chan : Channel :=
  { name := ("#chan"), modes := [('n'), ('t')],
    nicks := [(("alice"), { chanop := true }), (("bob"), { chanop := false })] }
def c4srv : IRCServer :=
  { nicks := [(("alice"), ⟨1, 0⟩), (("bob"), ⟨2, 0⟩)],
    sessions := [(⟨1, 0⟩, c4sessA), (⟨2, 0⟩, c4sessB)],
    channels := [(("#chan"), c4chan)] }

def c4msg : IrcMessage := { command := ("QUIT"), params := [("bye")] }

/-- C4: the claim asserts that for QUIT (as for all four removal
commands) the notification is synthesized before the membership mutation
is committed, with its recipient set computed from the state immediately
before the removal.  In `cmdQuit` the session deletion is committed
first: on a two-member channel the QUIT notification's delivery interest
is computed after `DeleteSession` and therefore omits the quitting
session, which the claim's notify-first reading would include. -/
theorem c4_counterexample_quit_order :
    (cmdQuit c4srv c4sessA {} c4msg).2.output ≠
      (cmdQuitNotifyFirst c4srv c4sessA {} c4msg).2.output ∧
    (cmdQuit c4srv c4sessA {} c4msg).2.output.map (fun o => o.interest.ids) =
      [[⟨2, 0⟩], [], [⟨1, 0⟩]] ∧
    (cmdQuitNotifyFirst c4srv c4sessA {} c4msg).2.output.map (fun o => o.interest.ids) =
      [[⟨1, 0⟩, ⟨2, 0⟩], [], [⟨1, 0⟩]] := by
  refine ⟨?_, by decide, by decide⟩
  decide

theorem commonIds_after_delete (i : IRCServer) (s : Session) (id : RobustId) :
    id ∈ commonChannelIds (DeleteSession i s) s ↔
      (id ≠ s.Id ∧ ∃ e ∈ i.sessions, e.1 = id ∧ sharesChannel e.2 s = true) := by
  simp only [commonChannelIds, DeleteSession, alDel, List.mem_map, List.mem_filter]
  constructor
  · rintro ⟨e, ⟨⟨he, hne⟩, hsh⟩, hid⟩
    simp at hne
    exact ⟨hid ▸ hne, e, he, hid, hsh⟩
  · rintro ⟨hne, e, he, hid, hsh⟩
    exact ⟨e, ⟨⟨he, by simpa [hid] using hne⟩, hsh⟩, hid⟩

theorem c4_part_eval (i : IRCServer) (s : Session) (r : Replyctx) (msg : IrcMessage)
    (cn : String) (c : Channel) (perms : MemberPerms)
    (hparams : msg.params = [cn])
    (hsplit : splitComma cn = [cn])
    (hch : alGet (ChanToLower cn) i.channels = some c)
    (hmem : alGet (NickToLower s.Nick) c.nicks = some perms)
    (hidx : alGet (NickToLower s.Nick) i.nicks = some s.Id)
    (hkey : ChanToLower c.name = ChanToLower cn) :
    (cmdPart i s r msg).2.output =
      r.output ++
        [⟨{ ids := channelMemberIds i c },
          { pref := some s.ircPref, command := ("PART"), params := [cn] }⟩,
         ⟨{ services := true },
          { pref := some s.ircPref, command := ("PART"), params := [cn] }⟩] ∧
    s.Id ∈ channelMemberIds i c ∧
    ((alGet (ChanToLower cn) (cmdPart i s r msg).1.channels = none) ∨
      (∃ c', alGet (ChanToLower cn) (cmdPart i s r msg).1.channels = some c' ∧
        alGet (NickToLower s.Nick) c'.nicks = none)) := by
  refine ⟨?_, ?_, ?_⟩
  · simp [cmdPart, hparams, hsplit, cmdPartLoop, cmdPartOne, hch, hmem,
      sendServices, sendChannel, sendUser, pushMsg, putSession, maybeDeleteChannel]
  · exact List.mem_filterMap.mpr ⟨_, alGet_mem _ _ _ hmem, hidx⟩
  · by_cases hemp : (alDel (NickToLower s.Nick) c.nicks).isEmpty
    · left
      simp [cmdPart, hparams, hsplit, cmdPartLoop, cmdPartOne, hch, hmem,
        putSession, maybeDeleteChannel, hemp, hkey, alGet_alDel_self]
    · right
      refine ⟨{ c with nicks := alDel (NickToLower s.Nick) c.nicks }, ?_, ?_⟩
      · simp [cmdPart, hparams, hsplit, cmdPartLoop, cmdPartOne, hch, hmem,
          putSession, maybeDeleteChannel, hemp, hkey, alGet_alSet_self]
      · exact alGet_alDel_self _ _

theorem c4_kick_eval (i : IRCServer) (s : Session) (r : Replyctx) (msg : IrcMessage)
    (cn tn reason : String) (c : Channel) (perms : MemberPerms) (tid : RobustId)
    (hparams : msg.params = [cn, tn, reason])
    (hch : alGet (ChanToLower cn) i.channels = some c)
    (hmem : alGet (NickToLower s.Nick) c.nicks = some perms)
    (hop : perms.chanop = true)
    (htmem : (alGet (NickToLower tn) c.nicks).isSome = true)
    (htidx : alGet (NickToLower tn) i.nicks = some tid)
    (hkey : ChanToLower c.name = ChanToLower cn) :
    (cmdKick i s r msg).2.output =
      r.output ++
        [⟨{ ids := channelMemberIds i c },
          { pref := some s.ircPref, command := ("KICK"), params := [cn, tn, reason] }⟩,
         ⟨{ services := true },
          { pref := some s.ircPref, command := ("KICK"), params := [cn, tn, reason] }⟩] ∧
    tid ∈ channelMemberIds i c ∧
    ((alGet (ChanToLower cn) (cmdKick i s r msg).1.channels = none) ∨
      (∃ c', alGet (ChanToLower cn) (cmdKick i s r msg).1.channels = some c' ∧
        alGet (NickToLower tn) c'.nicks = none)) := by
  obtain ⟨tperms, htp⟩ := Option.isSome_iff_exists.mp htmem
  refine ⟨?_, ?_, ?_⟩
  · simp [cmdKick, hparams, hch, hmem, hop, htp, IrcMessage.trailing,
      sendServices, sendChannel, sendUser, pushMsg, putSession, maybeDeleteChannel]
  · exact List.mem_filterMap.mpr ⟨_, alGet_mem _ _ _ htp, htidx⟩
  · by_cases hemp : (alDel (NickToLower tn) c.nicks).isEmpty
    · left
      simp [cmdKick, hparams, hch, hmem, hop, htp, putSession,
        maybeDeleteChannel, hemp, hkey, alGet_alDel_self]
    · right
      refine ⟨{ c with nicks := alDel (NickToLower tn) c.nicks }, ?_, ?_⟩
      · simp [cmdKick, hparams, hch, hmem, hop, htp, putSession,
          maybeDeleteChannel, hemp, hkey, alGet_alSet_self]
      · exact alGet_alDel_self _ _

theorem c4_quit_eval (i : IRCServer) (s : Session) (r : Replyctx) (msg : IrcMessage)
    (hlog : s.loggedIn = true) :
    (cmdQuit i s r msg).1 = DeleteSession i s ∧
    (cmdQuit i s r msg).2.output =
      r.output ++
        [⟨{ ids := commonChannelIds (DeleteSession i s) s },
          { pref := some s.ircPref, command := ("QUIT"), params := [msg.trailing] }⟩,
         ⟨{ services := true },
          { pref := some s.ircPref, command := ("QUIT"), params := [msg.trailing] }⟩,
         ⟨{ ids := [s.Id] },
          { command := ("ERROR"),
            params := [("Closing Link: ") ++ s.Nick ++ ("[") ++ s.ircPref.host ++
              ("] (") ++ msg.trailing ++ (")")] }⟩] ∧
    (∀ id, id ∈ commonChannelIds (DeleteSession i s) s ↔
      (id ≠ s.Id ∧ ∃ e ∈ i.sessions, e.1 = id ∧ sharesChannel e.2 s = true)) := by
  refine ⟨?_, ?_, fun id => commonIds_after_delete i s id⟩
  · simp [cmdQuit, hlog]
  · simp [cmdQuit, hlog, sendServices, sendCommonChannels, sendUser, pushMsg]

theorem c4_kill_eval (i : IRCServer) (s : Session) (r : Replyctx) (msg : IrcMessage)
    (tn reason : String) (tid : RobustId) (t : Session)
    (hparams : msg.params = [tn, reason])
    (hop : s.Operator = true)
    (hidx : alGet (NickToLower tn) i.nicks = some tid)
    (hsess : alGet tid i.sessions = some t) :
    (cmdKill i s r msg).1 = DeleteSession i t ∧
    (cmdKill i s r msg).2.output =
      r.output ++
        [⟨{ ids := commonChannelIds (DeleteSession i t) t },
          { pref := some t.ircPref, command := ("QUIT"),
            params := [("Killed by ") ++ s.Nick ++ (": ") ++ reason] }⟩,
         ⟨{ services := true },
          { pref := some t.ircPref, command := ("QUIT"),
            params := [("Killed by ") ++ s.Nick ++ (": ") ++ reason] }⟩,
         ⟨{ ids := [t.Id] },
          { pref := some s.ircPref, command := ("KILL"),
            params := [t.Nick,
              ("ircd!") ++ s.ircPref.host ++ ("!") ++ s.Nick ++ (" (") ++
                reason ++ (")")] }⟩,
         ⟨{ ids := [t.Id] },
          { command := ("ERROR"),
            params := [("Closing Link: ") ++ t.Nick ++ ("[") ++ t.ircPref.host ++
              ("] (Killed (") ++ s.Nick ++ (" (") ++ reason ++ (")))")] }⟩] ∧
    (∀ id, id ∈ commonChannelIds (DeleteSession i t) t ↔
      (id ≠ t.Id ∧ ∃ e ∈ i.sessions, e.1 = id ∧ sharesChannel e.2 t = true)) := by
  refine ⟨?_, ?_, fun id => commonIds_after_delete i t id⟩
  · simp [cmdKill, hparams, hop, hidx, hsess]
  · simp [cmdKill, hparams, hop, hidx, hsess, IrcMessage.trailing,
      sendServices, sendCommonChannels, sendUser, pushMsg]

/-- C4 (amended): for PART and KICK the removal notification is
synthesized before the membership mutation is committed, so its delivery
interest is the full pre-removal membership snapshot (the removed member
included); for QUIT and KILL the session deletion is committed first and
the QUIT notification is synthesized afterwards, its delivery interest
being exactly the sessions other than the removed one that shared a
channel with it in the pre-removal state, with the removed session
notified individually. -/
theorem c4_amended_removal_notifications :
    (∀ (i : IRCServer) (s : Session) (r : Replyctx) (msg : IrcMessage)
        (cn : String) (c : Channel) (perms : MemberPerms),
      msg.params = [cn] → splitComma cn = [cn] →
      alGet (ChanToLower cn) i.channels = some c →
      alGet (NickToLower s.Nick) c.nicks = some perms →
      alGet (NickToLower s.Nick) i.nicks = some s.Id →
      ChanToLower c.name = ChanToLower cn →
      (cmdPart i s r msg).2.output =
        r.output ++
          [⟨{ ids := channelMemberIds i c },
            { pref := some s.ircPref, command := ("PART"), params := [cn] }⟩,
           ⟨{ services := true },
            { pref := some s.ircPref, command := ("PART"), params := [cn] }⟩] ∧
      s.Id ∈ channelMemberIds i c ∧
      ((alGet (ChanToLower cn) (cmdPart i s r msg).1.channels = none) ∨
        (∃ c', alGet (ChanToLower cn) (cmdPart i s r msg).1.channels = some c' ∧
          alGet (NickToLower s.Nick) c'.nicks = none))) ∧
    (∀ (i : IRCServer) (s : Session) (r : Replyctx) (msg : IrcMessage)
        (cn tn reason : String) (c : Channel) (perms : MemberPerms) (tid : RobustId),
      msg.params = [cn, tn, reason] →
      alGet (ChanToLower cn) i.channels = some c →
      alGet (NickToLower s.Nick) c.nicks = some perms →
      perms.chanop = true →
      (alGet (NickToLower tn) c.nicks).isSome = true →
      alGet (NickToLower tn) i.nicks = some tid →
      ChanToLower c.name = ChanToLower cn →
      (cmdKick i s r msg).2.output =
        r.output ++
          [⟨{ ids := channelMemberIds i c },
            { pref := some s.ircPref, command := ("KICK"), params := [cn, tn, reason] }⟩,
           ⟨{ services := true },
            { pref := some s.ircPref, command := ("KICK"), params := [cn, tn, reason] }⟩] ∧
      tid ∈ channelMemberIds i c ∧
      ((alGet (ChanToLower cn) (cmdKick i s r msg).1.channels = none) ∨
        (∃ c', alGet (ChanToLower cn) (cmdKick i s r msg).1.channels = some c' ∧
          alGet (NickToLower tn) c'.nicks = none))) ∧
    (∀ (i : IRCServer) (s : Session) (r : Replyctx) (msg : IrcMessage),
      s.loggedIn = true →
      (cmdQuit i s r msg).1 = DeleteSession i s ∧
      (cmdQuit i s r msg).2.output =
        r.output ++
          [⟨{ ids := commonChannelIds (DeleteSession i s) s },
            { pref := some s.ircPref, command := ("QUIT"), params := [msg.trailing] }⟩,
           ⟨{ services := true },
            { pref := some s.ircPref, command := ("QUIT"), params := [msg.trailing] }⟩,
           ⟨{ ids := [s.Id] },
            { command := ("ERROR"),
              params := [("Closing Link: ") ++ s.Nick ++ ("[") ++ s.ircPref.host ++
                ("] (") ++ msg.trailing ++ (")")] }⟩] ∧
      (∀ id, id ∈ commonChannelIds (DeleteSession i s) s ↔
        (id ≠ s.Id ∧ ∃ e ∈ i.sessions, e.1 = id ∧ sharesChannel e.2 s = true))) ∧
    (∀ (i : IRCServer) (s : Session) (r : Replyctx) (msg : IrcMessage)
        (tn reason : String) (tid : RobustId) (t : Session),
      msg.params = [tn, reason] →
      s.Operator = true →
      alGet (NickToLower tn) i.nicks = some tid →
      alGet tid i.sessions = some t →
      (cmdKill i s r msg).1 = DeleteSession i t ∧
      (cmdKill i s r msg).2.output =
        r.output ++
          [⟨{ ids := commonChannelIds (DeleteSession i t) t },
            { pref := some t.ircPref, command := ("QUIT"),
              params := [("Killed by ") ++ s.Nick ++ (": ") ++ reason] }⟩,
           ⟨{ services := true },
            { pref := some t.ircPref, command := ("QUIT"),
              params := [("Killed by ") ++ s.Nick ++ (": ") ++ reason] }⟩,
           ⟨{ ids := [t.Id] },
            { pref := some s.ircPref, command := ("KILL"),
              params := [t.Nick,
                ("ircd!") ++ s.ircPref.host ++ ("!") ++ s.Nick ++ (" (") ++
                  reason ++ (")")] }⟩,
           ⟨{ ids := [t.Id] },
            { command := ("ERROR"),
              params := [("Closing Link: ") ++ t.Nick ++ ("[") ++ t.ircPref.host ++
                ("] (Killed (") ++ s.Nick ++ (" (") ++ reason ++ (")))")] }⟩] ∧
      (∀ id, id ∈ commonChannelIds (DeleteSession i t) t ↔
        (id ≠ t.Id ∧ ∃ e ∈ i.sessions, e.1 = id ∧ sharesChannel e.2 t = true))) :=
  ⟨c4_part_eval, c4_kick_eval, c4_quit_eval, c4_kill_eval⟩

theorem c4_amended_removal_notifications_witness :
    c4sessA.loggedIn = true ∧
    (cmdQuit c4srv c4sessA {} c4msg).1 = DeleteSession c4srv c4sessA ∧
    (⟨2, 0⟩ : RobustId) ∈ commonChannelIds (DeleteSession c4srv c4sessA) c4sessA ∧
    ¬ (⟨1, 0⟩ : RobustId) ∈ commonChannelIds (DeleteSession c4srv c4sessA) c4sessA := by
  have h := c4_amended_removal_notifications.2.2.1 c4srv c4sessA {} c4msg (by decide)
  refine ⟨by decide, h.1, ?_, ?_⟩
  · exact (h.2.2 ⟨2, 0⟩).mpr
      ⟨by decide, ⟨(⟨2, 0⟩, c4sessB), by decide, rfl, by decide⟩⟩
  · intro hmem
    exact ((h.2.2 ⟨1, 0⟩).mp hmem).1 (by decide)
